import Mathlib

/-!
# StartFast project generator — verification of the generation engine

Shallow embedding of the generation engine of the `startfast` repository
(`src/startproject.py`, `src/generators/*`): the configuration model, the
case-derivation functions, the template substitution used by the
generators, the per-generator write lists, the directory scaffold, and a
small file-system semantics for the orchestrated run.

Strings are modelled by Lean `String` (a wrapper around `List Char`);
the Python string primitives used by the source (`str.lower`,
`str.replace` with one-character patterns, `str.split` with a
one-character separator, `str.capitalize`) are translated below,
restricted to the ASCII behaviour, which is what project names use.
-/

namespace StartFast

/-! ## Python string primitives used by the source -/

/-- ASCII lowering of one character, as Python `str.lower` acts on
ASCII: an upper-case letter (code 65–90) is shifted by 32, everything
else is unchanged. -/
def pyLowerChar (c : Char) : Char :=
  if 65 ≤ c.toNat ∧ c.toNat ≤ 90 then Char.ofNat (c.toNat + 32) else c

/-- ASCII raising of one character, as Python `str.upper` acts on
ASCII: a lower-case letter (code 97–122) is shifted by 32 downwards. -/
def pyUpperChar (c : Char) : Char :=
  if 97 ≤ c.toNat ∧ c.toNat ≤ 122 then Char.ofNat (c.toNat - 32) else c

/-- Python `str.replace(a, b)` for one-character `a` and `b`:
character-wise substitution. -/
def replaceChar (a b : Char) (l : List Char) : List Char :=
  l.map fun c => if c = a then b else c

/-- Python `str.split(sep)` for a one-character separator: splits on
every occurrence and keeps empty pieces; the split of the empty string
is `[""]`. -/
def pySplit (sep : Char) : List Char → List (List Char)
  | [] => [[]]
  | c :: rest =>
    let r := pySplit sep rest
    if c = sep then [] :: r
    else
      match r with
      | [] => [[c]]
      | w :: ws => (c :: w) :: ws

/-- Python `str.capitalize`: first character upper-cased, the rest
lower-cased. -/
def pyCapitalize (l : List Char) : List Char :=
  match l with
  | [] => []
  | c :: rest => pyUpperChar c :: rest.map pyLowerChar

/-! ## Case-derivation functions

Translations of `TemplateManager._to_snake_case`, `_to_pascal_case`,
`_to_kebab_case` (src/src/fast_starter/generators/template_manager.py,
lines 47–57) and the inline derivations in
`BaseGenerator.get_template_vars` (src/generators/base_generator.py,
lines 37–56). -/

/-- `_to_snake_case(value)`: `value.lower().replace("-", "_").replace(" ", "_")`. -/
def toSnakeCase (s : String) : String :=
  ⟨replaceChar ' ' '_' (replaceChar '-' '_' (s.data.map pyLowerChar))⟩

/-- `_to_pascal_case(value)`:
`"".join(word.capitalize() for word in value.replace("-", "_").split("_"))`. -/
def toPascalCase (s : String) : String :=
  ⟨(((pySplit '_' (replaceChar '-' '_' s.data))).map pyCapitalize).flatten⟩

/-- `_to_kebab_case(value)`: `value.lower().replace("_", "-").replace(" ", "-")`. -/
def toKebabCase (s : String) : String :=
  ⟨replaceChar ' ' '-' (replaceChar '_' '-' (s.data.map pyLowerChar))⟩

/-- `BaseGenerator.get_template_vars`' `project_name_snake`:
`name.lower().replace("-", "_")` (no space handling, unlike the
template-manager variant). -/
def baseSnakeCase (s : String) : String :=
  ⟨replaceChar '-' '_' (s.data.map pyLowerChar)⟩

/-- A character allowed in an already-snake-cased name: an ASCII
lower-case letter, a digit, or an underscore. -/
def isSnakeChar (c : Char) : Bool :=
  (97 ≤ c.toNat && c.toNat ≤ 122) || (48 ≤ c.toNat && c.toNat ≤ 57) || c == '_'

/-- A name already in snake_case: every character is a lower-case ASCII
letter, digit or underscore. -/
def isSnakeCase (s : String) : Bool := s.data.all isSnakeChar

/-- A character allowed in an already-kebab-cased name. -/
def isKebabChar (c : Char) : Bool :=
  (97 ≤ c.toNat && c.toNat ≤ 122) || (48 ≤ c.toNat && c.toNat ≤ 57) || c == '-'

/-- A name already in kebab-case: every character is a lower-case ASCII
letter, digit or hyphen. -/
def isKebabCase (s : String) : Bool := s.data.all isKebabChar

/-- An ASCII upper-case letter. -/
def isUpperChar (c : Char) : Bool := 65 ≤ c.toNat && c.toNat ≤ 90

/-- A lower-case ASCII letter or digit. -/
def isLowerOrDigit (c : Char) : Bool :=
  (97 ≤ c.toNat && c.toNat ≤ 122) || (48 ≤ c.toNat && c.toNat ≤ 57)

/-- A name already in PascalCase, in the sense of the specification: a
non-empty alphanumeric ASCII word starting with an upper-case letter
(no separators). -/
def isPascalCase (s : String) : Bool :=
  match s.data with
  | [] => false
  | c :: rest => isUpperChar c && rest.all (fun d => isUpperChar d || isLowerOrDigit d)

/-- A single-word PascalCase name: an upper-case ASCII letter followed
only by lower-case letters or digits. -/
def isSingleWordPascal (s : String) : Bool :=
  match s.data with
  | [] => false
  | c :: rest => isUpperChar c && rest.all isLowerOrDigit

/-! ## Template substitution

The engine has two rendering paths.

`TemplateManager.render_string`
(src/src/fast_starter/generators/template_manager.py, lines 95–109)
builds a `jinja2.Template` from the source string with the default
environment and calls `render(**vars)`: with Jinja2's default
`Undefined`, a variable that is referenced but not present in the bag
renders as the empty string, silently.

`BaseGenerator.format_template` (src/generators/base_generator.py,
lines 58–60) calls Python `str.format(**vars)`, which raises `KeyError`
for a referenced variable absent from the bag.

Both are modelled at the level of an already-parsed template: a list of
tokens, each a literal or a variable reference. -/

/-- One token of a parsed template: a literal piece of text or a
variable reference. -/
inductive Tok where
  | lit (s : String)
  | var (v : String)
deriving DecidableEq, Repr

/-- Look up a variable in the bag (first binding wins, as in a Python
dict built left to right with distinct keys). -/
def lookupVar (bag : List (String × String)) (v : String) : Option String :=
  (bag.find? fun p => p.1 == v).map Prod.snd

/-- `TemplateManager.render_string` with Jinja2's default environment:
total; a variable missing from the bag renders as the empty string. -/
def jinjaRender (bag : List (String × String)) : List Tok → String
  | [] => ""
  | Tok.lit s :: ts => s ++ jinjaRender bag ts
  | Tok.var v :: ts => ((lookupVar bag v).getD "") ++ jinjaRender bag ts

/-- Python `str.format(**bag)` on a parsed template, as used by
`BaseGenerator.format_template` and the direct `template.format(...)`
calls in the generators: a referenced variable missing from the bag
raises `KeyError`, modelled as `Except.error` carrying the missing
key. -/
def pyFormat (bag : List (String × String)) : List Tok → Except String String
  | [] => .ok ""
  | Tok.lit s :: ts => (pyFormat bag ts).map (s ++ ·)
  | Tok.var v :: ts =>
    match lookupVar bag v with
    | some val => (pyFormat bag ts).map (val ++ ·)
    | none => .error v

/-- The variables referenced by a template. -/
def varsOf : List Tok → List String
  | [] => []
  | Tok.lit _ :: ts => varsOf ts
  | Tok.var v :: ts => v :: varsOf ts

/-! ## Configuration model

Translation of src/generators/config.py: the three axis enumerations
and the `ProjectConfig` dataclass. The dataclass has no `__post_init__`
and no field validation of any kind; construction always succeeds. -/

/-- `ProjectType` (src/generators/config.py, lines 14–20). -/
inductive ProjectType where
  | api
  | crud
  | mlApi
  | microservice
deriving DecidableEq, Repr

/-- `DatabaseType` (src/generators/config.py, lines 23–30). -/
inductive DatabaseType where
  | sqlite
  | postgresql
  | mysql
  | mongodb
  | redis
deriving DecidableEq, Repr

/-- `AuthType` (src/generators/config.py, lines 33–39). -/
inductive AuthType where
  | none
  | jwt
  | oauth2
  | apiKey
deriving DecidableEq, Repr

/-- `ProjectConfig` (src/generators/config.py, lines 42–58): a plain
dataclass; every field is stored as given, with the source's default
values. There is no validation logic in the class body. -/
structure ProjectConfig where
  name : String
  path : String
  project_type : ProjectType
  database_type : DatabaseType
  auth_type : AuthType
  is_async : Bool := true
  is_advanced : Bool := false
  include_docker : Bool := true
  include_tests : Bool := true
  include_docs : Bool := true
  include_monitoring : Bool := false
  include_celery : Bool := false
  python_version : String := "3.11"
deriving DecidableEq, Repr

/-- The parsed command-line arguments consumed by
`create_project_config` (src/startproject.py, lines 123–150): the
fields of `args` that the function reads. -/
structure CliArgs where
  name : String
  path : String
  type : ProjectType
  database : DatabaseType
  auth : AuthType
  sync : Bool
  advanced : Bool
  no_docker : Bool
  no_tests : Bool
  no_docs : Bool
  monitoring : Bool
  celery : Bool
  python_version : String
deriving DecidableEq, Repr

/-- `os.path.join(args.path, args.name)` for a relative name: the
directory, a separator, the name. -/
def osPathJoin (dir name : String) : String := dir ++ "/" ++ name

/-- `create_project_config` (src/startproject.py, lines 123–150): joins
the target path, then constructs `ProjectConfig` field by field. It is
total — the source performs no validation of `args.name` and can only
exit early on the interactive overwrite prompt, which does not depend
on the name's character set. -/
def createProjectConfig (args : CliArgs) : ProjectConfig :=
  { name := args.name
    path := osPathJoin args.path args.name
    project_type := args.type
    database_type := args.database
    auth_type := args.auth
    is_async := !args.sync
    is_advanced := args.advanced
    include_docker := !args.no_docker
    include_tests := !args.no_tests
    include_docs := !args.no_docs
    include_monitoring := args.monitoring
    include_celery := args.celery
    python_version := args.python_version }

/-- Modelled from the spec: the name constraint of §3 — "must be
non-empty and restricted to alphanumerics, hyphen, underscore". This is
the predicate the specification says the constructor enforces; it is
stated from the spec's words so it can be compared with what the code
actually does. -/
def specNameValid (s : String) : Bool :=
  !s.data.isEmpty &&
    s.data.all fun c =>
      (65 ≤ c.toNat && c.toNat ≤ 90) || (97 ≤ c.toNat && c.toNat ≤ 122) ||
        (48 ≤ c.toNat && c.toNat ≤ 57) || c == '-' || c == '_'

/-! ## Rendered artifacts

A path is the list of its segments relative to the project root
(`config.path`); every file the engine writes has the form
`f"{self.config.path}/REL"`, so the root prefix is factored out. A
write is a (relative path, content) pair, produced by a generator and
persisted by `BaseGenerator.write_file`.

The literal template payloads are multi-hundred-line opaque strings;
they are abbreviated here to short distinct marker strings, named after
the source method that returns them. Every branch of the source's
template *selection* logic is translated exactly, as is every
dependency of a payload on the configuration (which name variant, which
axis values, which feature flags it interpolates); only the inert text
around those dependencies is abbreviated. -/

abbrev Path := List String

abbrev FileWrite := Path × String

/-- The relative paths of a list of writes. -/
def pathsOf (ws : List FileWrite) : List Path := ws.map Prod.fst

/-- The parent directory of a relative path: the path with its final
segment removed (`Path(file_path).parent`). -/
def parentDir (p : Path) : Path := p.dropLast

/-- `get_template_vars`' `project_name_snake` for a configuration. -/
def projectNameSnake (c : ProjectConfig) : String := baseSnakeCase c.name

/-- `get_template_vars`' `project_name_pascal` for a configuration. -/
def projectNamePascal (c : ProjectConfig) : String := toPascalCase c.name

/-! ### Directory scaffold

Translation of `ProjectGenerator._create_directory_structure`
(src/generators/project_generator.py, lines 64–104): a fixed list of
directories, extended for tests, docs, and the Celery task package. -/

/-- The fixed block of the scaffold: the `directories` list of lines
73–84, relative to the project root (the root itself is `[]`). -/
def scaffoldBaseDirs : List Path :=
  [[], ["app"], ["app", "api"], ["app", "api", "v1"], ["app", "core"],
   ["app", "db"], ["app", "models"], ["app", "schemas"],
   ["app", "services"], ["app", "utils"]]

/-- The conditional tests block of the scaffold (lines 87–94). -/
def testsScaffoldDirs : List Path :=
  [["tests"], ["tests", "api"], ["tests", "services"]]

/-- The directories created by the Scaffold phase, relative to the
project root: the fixed block, extended for tests, docs, and the
Celery task package. -/
def scaffoldDirs (c : ProjectConfig) : List Path :=
  scaffoldBaseDirs
    ++ (if c.include_tests then testsScaffoldDirs else [])
    ++ (if c.include_docs then [["docs"]] else [])
    ++ (if c.include_celery then [["app", "tasks"]] else [])

/-! ### Auth generator

Translation of src/generators/file_generators/auth_generator.py. The
JWT security template is the one payload whose internal structure a
claim depends on, so it is kept at the token level: the source template
(lines 47–117) is a literal with exactly two `str.format` references,
`{async_user_functions}` and `{async_current_user}` — there is no
`{sync_user_functions}` or `{sync_current_user}` reference in it, even
though `_get_jwt_template` (lines 198–207) puts all four keys in the
variable bag. -/

/-- The literal text of the JWT template before its first placeholder
(docstring, imports, password and token helpers), abbreviated. -/
def jwtTemplateHead : String := "JWT security header: hashing, token create/verify\n"

/-- The literal text between the two placeholders (`authenticate_user`,
which calls `get_user_by_email`), abbreviated. -/
def jwtTemplateMid : String := "\nauthenticate_user (calls get_user_by_email)\n"

/-- The non-blocking user-function bodies (`async def
get_user_by_email`, `async def create_user`), abbreviated. -/
def asyncUserFunctions : String := "async def get_user_by_email / async def create_user"

/-- The non-blocking `get_current_user` body, abbreviated. -/
def asyncCurrentUser : String := "async def get_current_user"

/-- The blocking user-function bodies (`def get_user_by_email`,
`def create_user`), abbreviated. -/
def syncUserFunctions : String := "def get_user_by_email / def create_user"

/-- The blocking `get_current_user` body, abbreviated. -/
def syncCurrentUser : String := "def get_current_user"

/-- The parsed JWT security template: literals around the exactly two
variable references the source template contains. -/
def jwtTemplateTokens : List Tok :=
  [Tok.lit jwtTemplateHead, Tok.var "async_user_functions",
   Tok.lit jwtTemplateMid, Tok.var "async_current_user"]

/-- The `template_vars` dict built at the end of `_get_jwt_template`
(lines 198–207): all four keys, each conditional on `is_async` exactly
as in the source (`async_user_functions if self.config.is_async else
""`, and symmetrically for the sync bodies). -/
def jwtTemplateVars (c : ProjectConfig) : List (String × String) :=
  [("async_user_functions", if c.is_async then asyncUserFunctions else ""),
   ("sync_user_functions", if c.is_async then "" else syncUserFunctions),
   ("async_current_user", if c.is_async then asyncCurrentUser else ""),
   ("sync_current_user", if c.is_async then "" else syncCurrentUser)]

/-- `_get_jwt_template`: `template.format(**template_vars)` (the outer
`format_template` pass only unescapes doubled braces inside the
already-substituted payload and is absorbed into the markers). -/
def getJwtTemplate (c : ProjectConfig) : Except String String :=
  pyFormat (jwtTemplateVars c) jwtTemplateTokens

/-- `_get_oauth2_template` payload, abbreviated. -/
def oauth2TemplateBody : String := "OAuth2 security: oauth2_scheme + get_current_user placeholder"

/-- `_get_api_key_template` payload, abbreviated. -/
def apiKeyTemplateBody : String := "API key security: api_key_header + get_api_key"

/-- `_get_security_template` (lines 35–43): selects exactly one of the
three bodies by `auth_type`, and returns `""` for the remaining case. -/
def getSecurityTemplate (c : ProjectConfig) : String :=
  if c.auth_type = AuthType.jwt then (getJwtTemplate c).toOption.getD ""
  else if c.auth_type = AuthType.oauth2 then oauth2TemplateBody
  else if c.auth_type = AuthType.apiKey then apiKeyTemplateBody
  else ""

/-- `_get_auth_models_template` payload (User model), abbreviated. -/
def authModelsBody : String := "auth models: User table"

/-- `_get_auth_schemas_template` payload (Token/User schemas), abbreviated. -/
def authSchemasBody : String := "auth schemas: Token, TokenData, User*"

/-- `AuthGenerator.should_generate` (lines 13–15). -/
def authShouldGenerate (c : ProjectConfig) : Bool := c.auth_type != AuthType.none

/-- `AuthGenerator.generate` (lines 17–33): always writes
`app/core/security.py`; writes the auth model and schema files only for
JWT and OAuth2. -/
def authGenerate (c : ProjectConfig) : List FileWrite :=
  [(["app", "core", "security.py"], getSecurityTemplate c)]
    ++ (if c.auth_type = AuthType.jwt ∨ c.auth_type = AuthType.oauth2 then
          [(["app", "models", "auth.py"], authModelsBody),
           (["app", "schemas", "auth.py"], authSchemasBody)]
        else [])

/-- The auth generator's contribution to the run, gated by
`should_generate` as in `ProjectGenerator._generate_files`. -/
def authWrites (c : ProjectConfig) : List FileWrite :=
  if authShouldGenerate c then authGenerate c else []

/-! ### Models generator

Translation of src/generators/file_generators/models_generator.py. -/

/-- `_get_sqlalchemy_item_model` payload, abbreviated. -/
def itemModelSqlalchemyBody : String := "item model: SQLAlchemy items table"

/-- `_get_mongodb_item_model`, async branch (Beanie), abbreviated. -/
def itemModelMongoAsyncBody : String := "item model: MongoDB Beanie document"

/-- `_get_mongodb_item_model`, sync branch (MongoEngine), abbreviated. -/
def itemModelMongoSyncBody : String := "item model: MongoDB MongoEngine document"

/-- `_get_ml_model_template` payload, abbreviated. -/
def mlModelBody : String := "ML models: Prediction, ModelMetadata"

/-- `_get_item_model_template` (lines 29–39): the relational family for
SQLite/PostgreSQL/MySQL, the document family (split on `is_async`) for
MongoDB, and the bare `return ""` fall-through for Redis. -/
def getItemModelTemplate (c : ProjectConfig) : String :=
  if c.database_type = DatabaseType.sqlite ∨ c.database_type = DatabaseType.postgresql
      ∨ c.database_type = DatabaseType.mysql then
    itemModelSqlalchemyBody
  else if c.database_type = DatabaseType.mongodb then
    (if c.is_async then itemModelMongoAsyncBody else itemModelMongoSyncBody)
  else ""

/-- `ModelsGenerator.generate` (lines 13–27): the item model for CRUD
and API archetypes (written unconditionally on the database axis, with
whatever `_get_item_model_template` returned), the prediction model for
ML-API. `should_generate` is the base-class default `True`. -/
def modelsWrites (c : ProjectConfig) : List FileWrite :=
  (if c.project_type = ProjectType.crud ∨ c.project_type = ProjectType.api then
     [(["app", "models", "item.py"], getItemModelTemplate c)]
   else [])
    ++ (if c.project_type = ProjectType.mlApi then
          [(["app", "models", "prediction.py"], mlModelBody)]
        else [])

/-! ### Services generator

Translation of src/generators/file_generators/services_generator.py. -/

/-- `_get_sqlalchemy_item_service`, async branch, abbreviated. -/
def itemServiceSqlalchemyAsyncBody : String := "item service: async SQLAlchemy CRUD"

/-- `_get_sqlalchemy_item_service`, sync branch, abbreviated. -/
def itemServiceSqlalchemySyncBody : String := "item service: sync SQLAlchemy CRUD"

/-- `_get_mongodb_item_service`, async branch, abbreviated. -/
def itemServiceMongoAsyncBody : String := "item service: async MongoDB CRUD"

/-- `_get_mongodb_item_service`, sync branch, abbreviated. -/
def itemServiceMongoSyncBody : String := "item service: sync MongoDB CRUD"

/-- `_get_ml_service_template` payload (no configuration reference),
abbreviated. -/
def mlServiceBody : String := "prediction service: MLModel + predict"

/-- `_get_processing_service_template` payload (no configuration
reference), abbreviated. -/
def processingServiceBody : String := "processing service: pipeline"

/-- `_get_item_service_template` (lines 38–48): the same family
selection as the item model, with the bare `return ""` fall-through for
Redis. -/
def getItemServiceTemplate (c : ProjectConfig) : String :=
  if c.database_type = DatabaseType.sqlite ∨ c.database_type = DatabaseType.postgresql
      ∨ c.database_type = DatabaseType.mysql then
    (if c.is_async then itemServiceSqlalchemyAsyncBody else itemServiceSqlalchemySyncBody)
  else if c.database_type = DatabaseType.mongodb then
    (if c.is_async then itemServiceMongoAsyncBody else itemServiceMongoSyncBody)
  else ""

/-- `ServicesGenerator.generate` (lines 13–36): item service for CRUD
and API, prediction service for ML-API, processing service for
microservice. `should_generate` is the base-class default `True`; none
of the service payloads reads the auth axis. -/
def servicesWrites (c : ProjectConfig) : List FileWrite :=
  (if c.project_type = ProjectType.crud ∨ c.project_type = ProjectType.api then
     [(["app", "services", "item_service.py"], getItemServiceTemplate c)]
   else [])
    ++ (if c.project_type = ProjectType.mlApi then
          [(["app", "services", "prediction_service.py"], mlServiceBody)]
        else [])
    ++ (if c.project_type = ProjectType.microservice then
          [(["app", "services", "processing_service.py"], processingServiceBody)]
        else [])

/-! ### Schemas generator

Translation of src/generators/file_generators/schemas_generator.py. -/

/-- `_get_item_schema_template` payload, abbreviated. -/
def itemSchemaBody : String := "item schemas: ItemCreate/ItemUpdate/ItemResponse"

/-- `_get_ml_schema_template` payload, abbreviated. -/
def mlSchemaBody : String := "prediction schemas"

/-- `_get_common_schema_template` payload, abbreviated. -/
def commonSchemaBody : String := "common schemas"

/-- `SchemasGenerator.generate` (lines 13–33): item schemas for CRUD and
API, prediction schemas for ML-API, common schemas always. -/
def schemasWrites (c : ProjectConfig) : List FileWrite :=
  (if c.project_type = ProjectType.crud ∨ c.project_type = ProjectType.api then
     [(["app", "schemas", "item.py"], itemSchemaBody)]
   else [])
    ++ (if c.project_type = ProjectType.mlApi then
          [(["app", "schemas", "prediction.py"], mlSchemaBody)]
        else [])
    ++ [(["app", "schemas", "common.py"], commonSchemaBody)]

/-! ### API generator

Translation of src/generators/file_generators/api_generator.py. -/

/-- `_get_endpoints_template` (lines 28–101): the endpoints payload is
assembled from the project name and from pieces conditional on the auth
axis (`auth_imports`, `auth_endpoints_include`), on the archetype
(CRUD endpoints for CRUD/API — themselves split on `is_async` in
`_get_crud_endpoints` — the ML or microservice endpoint block
otherwise). The surrounding literal text is abbreviated. -/
def endpointsBody (c : ProjectConfig) : String :=
  "main endpoints for " ++ c.name
    ++ (if c.auth_type != AuthType.none then " +auth-imports+auth-router" else "")
    ++ (if c.project_type = ProjectType.crud ∨ c.project_type = ProjectType.api then
          (if c.is_async then " +crud-endpoints-async" else " +crud-endpoints-sync")
        else "")
    ++ (if c.project_type = ProjectType.mlApi then " +ml-endpoints" else "")
    ++ (if c.project_type = ProjectType.microservice then " +microservice-endpoints" else "")

/-- `_get_auth_endpoints_template` payload (lines 288–367): constant —
the only `format` argument, `auth_security_imports`, is a literal. -/
def authEndpointsBody : String := "auth endpoints: register/login/me"

/-- `APIGenerator.generate` (lines 13–26): the main endpoints always,
the auth endpoints only when authentication is enabled. -/
def apiWrites (c : ProjectConfig) : List FileWrite :=
  [(["app", "api", "v1", "endpoints.py"], endpointsBody c)]
    ++ (if c.auth_type != AuthType.none then
          [(["app", "api", "v1", "auth.py"], authEndpointsBody)]
        else [])

/-! ### Utils, config, environment, docker generators -/

/-- `UtilsGenerator._get_utils_template` payload, abbreviated. -/
def utilsHelpersBody : String := "utils: helpers"

/-- `UtilsGenerator._get_logging_template` payload: interpolates
`{project_name_snake}`. -/
def utilsLoggingBody (c : ProjectConfig) : String :=
  "utils: logging for " ++ projectNameSnake c

/-- `UtilsGenerator._get_validation_template` payload, abbreviated. -/
def utilsValidationBody : String := "utils: validation"

/-- `UtilsGenerator.generate` (src/generators/file_generators/utils_generator.py,
lines 12–25). -/
def utilsWrites (c : ProjectConfig) : List FileWrite :=
  [(["app", "utils", "helpers.py"], utilsHelpersBody),
   (["app", "utils", "logging.py"], utilsLoggingBody c),
   (["app", "utils", "validation.py"], utilsValidationBody)]

/-- `ConfigGenerator._get_database_url` (src/generators/file_generators/config_generator.py,
lines 92–104): one connection-string default per database kind. -/
def configDatabaseUrl (db : DatabaseType) : String :=
  match db with
  | DatabaseType.sqlite => "sqlite:///./app.db"
  | DatabaseType.postgresql => "postgresql default url"
  | DatabaseType.mysql => "mysql default url"
  | DatabaseType.mongodb => "mongodb default url"
  | DatabaseType.redis => "redis default url"

/-- `ConfigGenerator._get_additional_settings` (lines 106–135): extra
settings blocks for monitoring, Celery, and the Redis database kind. -/
def configAdditionalSettings (c : ProjectConfig) : String :=
  (if c.include_monitoring then " +monitoring-settings" else "")
    ++ (if c.include_celery then " +celery-settings" else "")
    ++ (if c.database_type = DatabaseType.redis then " +redis-settings" else "")

/-- `ConfigGenerator._get_config_template`: settings payload
interpolating the project name, the database URL and the additional
settings; surrounding literal text abbreviated. -/
def configBody (c : ProjectConfig) : String :=
  "settings APP_NAME=" ++ c.name ++ " DATABASE_URL=" ++ configDatabaseUrl c.database_type
    ++ configAdditionalSettings c

/-- `ConfigGenerator.generate` (lines 13–16). -/
def configWrites (c : ProjectConfig) : List FileWrite :=
  [(["app", "core", "config.py"], configBody c)]

/-- `EnvironmentGenerator._get_database_env_vars`
(src/generators/file_generators/environment_generator.py, lines
80–112): one block per database kind (the fall-through duplicates the
SQLite block). -/
def envDatabaseVars (db : DatabaseType) : String :=
  match db with
  | DatabaseType.sqlite => "DATABASE_URL=sqlite:///./app.db"
  | DatabaseType.postgresql => "postgres env block"
  | DatabaseType.mysql => "mysql env block"
  | DatabaseType.mongodb => "mongodb env block"
  | DatabaseType.redis => "redis env block"

/-- `EnvironmentGenerator._get_security_env_vars` (lines 148–170): a
comment for `auth_type == NONE`, otherwise the secret-key block plus an
OAuth2 or API-key extension. -/
def envSecurityVars (c : ProjectConfig) : String :=
  if c.auth_type = AuthType.none then "# No authentication configured"
  else
    "SECRET_KEY block"
      ++ (if c.auth_type = AuthType.oauth2 then " +oauth2-vars" else "")
      ++ (if c.auth_type = AuthType.apiKey then " +api-key-header" else "")

/-- `EnvironmentGenerator._get_additional_env_vars` (lines 196–223):
monitoring and Celery blocks. -/
def envAdditionalVars (c : ProjectConfig) : String :=
  (if c.include_monitoring then "monitoring env block" else "")
    ++ (if c.include_celery then "celery env block" else "")

/-- `EnvironmentGenerator._get_env_template`: an f-string interpolating
the project name and the three blocks. -/
def envBody (c : ProjectConfig) : String :=
  "APP_NAME=" ++ c.name ++ "\n" ++ envDatabaseVars c.database_type ++ "\n"
    ++ envSecurityVars c ++ "\n" ++ envAdditionalVars c

/-- `EnvironmentGenerator._get_env_example_template`: same structure
with placeholder values and no project name. -/
def envExampleBody (c : ProjectConfig) : String :=
  "APP_NAME=your-app-name\n" ++ envDatabaseVars c.database_type ++ " (example)\n"
    ++ envSecurityVars c ++ " (example)\n" ++ envAdditionalVars c

/-- `EnvironmentGenerator.generate` (lines 13–20). -/
def environmentWrites (c : ProjectConfig) : List FileWrite :=
  [([".env"], envBody c), ([".env.example"], envExampleBody c)]

/-- `DockerGenerator._get_dockerfile_template`
(src/generators/file_generators/docker_generator.py, lines 31–75):
interpolates `{python_version}`. -/
def dockerfileBody (c : ProjectConfig) : String :=
  "FROM python:" ++ c.python_version ++ "-slim ..."

/-- `DockerGenerator._get_compose_template` with
`_get_database_config` (lines 77–203) and `_get_additional_services`
(lines 205–263): the compose payload interpolates the snake-case name
and varies with the database kind, plus worker/scheduler and
monitoring service blocks. -/
def composeBody (c : ProjectConfig) : String :=
  "compose " ++ projectNameSnake c
    ++ (match c.database_type with
        | DatabaseType.postgresql => " +postgres-service"
        | DatabaseType.mysql => " +mysql-service"
        | DatabaseType.mongodb => " +mongo-service"
        | DatabaseType.redis => " +redis-service"
        | DatabaseType.sqlite => " +sqlite-volume")
    ++ (if c.include_celery then " +celery-worker-service" else "")
    ++ (if c.include_monitoring then " +prometheus-grafana-services" else "")

/-- `DockerGenerator._get_dockerignore_template` payload, abbreviated. -/
def dockerignoreBody : String := "dockerignore entries"

/-- `DockerGenerator.should_generate` (lines 13–15). -/
def dockerShouldGenerate (c : ProjectConfig) : Bool := c.include_docker

/-- `DockerGenerator.generate` (lines 17–29). -/
def dockerGenerate (c : ProjectConfig) : List FileWrite :=
  [(["Dockerfile"], dockerfileBody c),
   (["docker-compose.yml"], composeBody c),
   ([".dockerignore"], dockerignoreBody)]

/-- The Docker generator's gated contribution to the run. -/
def dockerWrites (c : ProjectConfig) : List FileWrite :=
  if dockerShouldGenerate c then dockerGenerate c else []

/-! ### Tests, docs, monitoring, celery generators -/

/-- `TestsGenerator._get_conftest_template`
(src/generators/file_generators/tests_generator.py, lines 48–211):
fixtures payload, extended with user/auth-header fixtures when
authentication is enabled (line 178). -/
def conftestBody (c : ProjectConfig) : String :=
  "conftest fixtures"
    ++ (if c.auth_type != AuthType.none then " +auth-fixtures" else "")

/-- `TestsGenerator._get_api_test_template` (lines 213–275):
interpolates the project name; appends CRUD tests (whose fixture list
depends on the auth axis, line 279) for CRUD/API and ML tests for
ML-API. -/
def apiTestBody (c : ProjectConfig) : String :=
  "endpoint tests for " ++ c.name
    ++ (if c.project_type = ProjectType.crud ∨ c.project_type = ProjectType.api then
          " +crud-tests" ++ (if c.auth_type != AuthType.none then "+auth-param" else "")
        else "")
    ++ (if c.project_type = ProjectType.mlApi then
          " +ml-tests" ++ (if c.auth_type != AuthType.none then "+auth-param" else "")
        else "")

/-- `TestsGenerator._get_service_test_template` (lines 408–604): split
on `is_async`. -/
def serviceTestBody (c : ProjectConfig) : String :=
  if c.is_async then "item service tests (async)" else "item service tests (sync)"

/-- `TestsGenerator._get_auth_test_template` payload, abbreviated. -/
def authTestBody : String := "auth endpoint tests"

/-- `TestsGenerator._get_pytest_ini_template` payload, abbreviated. -/
def pytestIniBody : String := "pytest.ini"

/-- `TestsGenerator.should_generate` (lines 13–15). -/
def testsShouldGenerate (c : ProjectConfig) : Bool := c.include_tests

/-- `TestsGenerator.generate` (lines 17–46): conftest and endpoint
tests always, service tests for CRUD/API, auth tests when
authentication is enabled, pytest.ini always. -/
def testsGenerate (c : ProjectConfig) : List FileWrite :=
  [(["tests", "conftest.py"], conftestBody c),
   (["tests", "api", "test_endpoints.py"], apiTestBody c)]
    ++ (if c.project_type = ProjectType.crud ∨ c.project_type = ProjectType.api then
          [(["tests", "services", "test_item_service.py"], serviceTestBody c)]
        else [])
    ++ (if c.auth_type != AuthType.none then
          [(["tests", "api", "test_auth.py"], authTestBody)]
        else [])
    ++ [(["pytest.ini"], pytestIniBody)]

/-- The tests generator's gated contribution to the run. -/
def testsWrites (c : ProjectConfig) : List FileWrite :=
  if testsShouldGenerate c then testsGenerate c else []

/-- `DocsGenerator._get_api_docs_template` with
`_get_auth_documentation`
(src/generators/file_generators/docs_generator.py, lines 45–257):
interpolates the Pascal-case name; CRUD or ML endpoint sections by
archetype; one auth section per auth kind. -/
def apiDocsBody (c : ProjectConfig) : String :=
  "api docs " ++ projectNamePascal c
    ++ (if c.project_type = ProjectType.crud ∨ c.project_type = ProjectType.api then
          " +crud-docs" else "")
    ++ (if c.project_type = ProjectType.mlApi then " +ml-docs" else "")
    ++ (match c.auth_type with
        | AuthType.none => " (no auth)"
        | AuthType.jwt => " +jwt-docs"
        | AuthType.apiKey => " +api-key-docs"
        | AuthType.oauth2 => " +oauth2-docs")

/-- `DocsGenerator._get_deployment_docs_template` (lines 381–705):
interpolates name and Python version and varies with the database kind
and the Celery/monitoring flags. -/
def deploymentDocsBody (c : ProjectConfig) : String :=
  "deployment docs " ++ projectNamePascal c ++ " py" ++ c.python_version
    ++ (if c.include_celery then " +celery-deploy" else "")
    ++ (if c.include_monitoring then " +monitoring-deploy" else "")
    ++ " db:" ++ configDatabaseUrl c.database_type

/-- `DocsGenerator._get_development_docs_template` (lines 708–1009):
varies with the Docker flag, the database kind, the advanced flag and
the Celery flag. -/
def developmentDocsBody (c : ProjectConfig) : String :=
  "development docs"
    ++ (if c.include_docker then " +docker-dev" else "")
    ++ (if c.database_type != DatabaseType.sqlite then " +external-db-dev" else "")
    ++ (if c.is_advanced then " +advanced-dev" else "")
    ++ (if c.include_celery then " +celery-dev" else "")

/-- `DocsGenerator._get_config_docs_template` (lines 1011–1265): varies
with the auth, monitoring and Celery axes. -/
def configDocsBody (c : ProjectConfig) : String :=
  "configuration docs"
    ++ (if c.auth_type != AuthType.none then " +auth-config-docs" else "")
    ++ (if c.include_monitoring then " +monitoring-config-docs" else "")
    ++ (if c.include_celery then " +celery-config-docs" else "")

/-- `DocsGenerator._get_contributing_template` (lines 1267 ff.):
interpolates the Pascal-case name. -/
def contributingBody (c : ProjectConfig) : String :=
  "contributing guide for " ++ projectNamePascal c

/-- `DocsGenerator.should_generate` (lines 13–15). -/
def docsShouldGenerate (c : ProjectConfig) : Bool := c.include_docs

/-- `DocsGenerator.generate` (lines 17–43). -/
def docsGenerate (c : ProjectConfig) : List FileWrite :=
  [(["docs", "api.md"], apiDocsBody c),
   (["docs", "deployment.md"], deploymentDocsBody c),
   (["docs", "development.md"], developmentDocsBody c),
   (["docs", "configuration.md"], configDocsBody c),
   (["CONTRIBUTING.md"], contributingBody c)]

/-- The docs generator's gated contribution to the run. -/
def docsWrites (c : ProjectConfig) : List FileWrite :=
  if docsShouldGenerate c then docsGenerate c else []

/-- `MonitoringGenerator._get_prometheus_config`
(src/generators/file_generators/monitoring_generator.py, lines 36–71):
interpolates both name variants. -/
def prometheusBody (c : ProjectConfig) : String :=
  "prometheus config for " ++ projectNamePascal c ++ " / " ++ projectNameSnake c

/-- `MonitoringGenerator._get_grafana_dashboard` (lines 73–194):
interpolates both name variants. -/
def grafanaBody (c : ProjectConfig) : String :=
  "grafana dashboard for " ++ projectNamePascal c ++ " / " ++ projectNameSnake c

/-- `MonitoringGenerator._get_monitoring_middleware` payload,
abbreviated. -/
def monitoringMiddlewareBody : String := "monitoring middleware"

/-- `MonitoringGenerator.should_generate` (lines 12–14). -/
def monitoringShouldGenerate (c : ProjectConfig) : Bool := c.include_monitoring

/-- `MonitoringGenerator.generate` (lines 16–34): two files under
`monitoring/` — a directory the Scaffold phase does not create — and
the middleware under `app/utils/`. -/
def monitoringGenerate (c : ProjectConfig) : List FileWrite :=
  [(["monitoring", "prometheus.yml"], prometheusBody c),
   (["monitoring", "grafana", "dashboard.json"], grafanaBody c),
   (["app", "utils", "monitoring.py"], monitoringMiddlewareBody)]

/-- The monitoring generator's contribution: in
`ProjectGenerator._setup_generators` it is registered only when
`include_monitoring` is set, and its `should_generate` checks the same
flag. -/
def monitoringWrites (c : ProjectConfig) : List FileWrite :=
  if monitoringShouldGenerate c then monitoringGenerate c else []

/-- `CeleryGenerator._get_celery_app_template`
(src/generators/file_generators/celery_generator.py, lines 37–159):
interpolates the snake-case name; appends a beat-schedule block when
`is_advanced` (line 138). -/
def celeryAppBody (c : ProjectConfig) : String :=
  "celery app " ++ projectNameSnake c
    ++ (if c.is_advanced then " +beat-schedule" else "")

/-- `CeleryGenerator._get_tasks_template` (lines 161–606): interpolates
the snake-case name; appends ML tasks for the ML-API archetype (lines
450, 559). -/
def celeryTasksBody (c : ProjectConfig) : String :=
  "celery tasks " ++ projectNameSnake c
    ++ (if c.project_type = ProjectType.mlApi then " +ml-tasks" else "")

/-- `CeleryGenerator._get_worker_script` payload (constant),
abbreviated. -/
def celeryWorkerBody : String := "celery worker script"

/-- `CeleryGenerator._get_beat_config` (lines 640 ff.): appends an ML
schedule for the ML-API archetype (line 742). -/
def celeryBeatBody (c : ProjectConfig) : String :=
  "celery beat config"
    ++ (if c.project_type = ProjectType.mlApi then " +ml-schedule" else "")

/-- `CeleryGenerator.should_generate` (lines 12–14). -/
def celeryShouldGenerate (c : ProjectConfig) : Bool := c.include_celery

/-- `CeleryGenerator.generate` (lines 16–35): two task files under
`app/tasks/`, the worker script under `scripts/` — a directory the
Scaffold phase does not create — and the beat configuration when
`is_advanced`. -/
def celeryGenerate (c : ProjectConfig) : List FileWrite :=
  [(["app", "tasks", "celery_app.py"], celeryAppBody c),
   (["app", "tasks", "tasks.py"], celeryTasksBody c),
   (["scripts", "start_worker.py"], celeryWorkerBody)]
    ++ (if c.is_advanced then
          [(["app", "tasks", "beat_config.py"], celeryBeatBody c)]
        else [])

/-- The Celery generator's contribution: registered only when
`include_celery`, and `should_generate` checks the same flag. -/
def celeryWrites (c : ProjectConfig) : List FileWrite :=
  if celeryShouldGenerate c then celeryGenerate c else []

/-! ### Generators whose module is not in the source tree

`file_generators/__init__.py` imports and `ProjectGenerator` registers
`RequirementsGenerator`, `MainAppGenerator` and `DatabaseGenerator`,
but their module files are not present under src/. They are modelled
from the spec at the granularity the claims need: each is an
unconditionally applicable generator writing fixed paths under
directories the Scaffold phase creates. -/

/-- Modelled from the spec: `RequirementsGenerator` (module missing
from src/) — the dependency manifest at the project root (§2:
"post-generation fixed artifacts"; registered first in
`_setup_generators`). -/
def requirementsWrites (_c : ProjectConfig) : List FileWrite :=
  [(["requirements.txt"], "requirements payload")]

/-- Modelled from the spec: `MainAppGenerator` (module missing from
src/) — the application entry point under `app/` (the generated
templates and README refer to `app.main:app`). -/
def mainAppWrites (_c : ProjectConfig) : List FileWrite :=
  [(["app", "main.py"], "FastAPI application entry point")]

/-- Modelled from the spec: `DatabaseGenerator` (module missing from
src/) — the persistence-layer setup under `app/db/` (the generated
auth and test payloads import `app.db.database` and `app.db.base`);
§4.3: persistence generators branch on the database kind and the
sync/async style. -/
def databaseWrites (c : ProjectConfig) : List FileWrite :=
  [(["app", "db", "database.py"],
      "database session setup " ++ configDatabaseUrl c.database_type
        ++ (if c.is_async then " (async)" else " (sync)")),
   (["app", "db", "base.py"], "declarative base")]

/-! ### Orchestrator

Translation of `ProjectGenerator` (src/generators/project_generator.py):
`_setup_generators` fixes the registration order (a Python dict
preserves insertion order), `_generate_files` runs each registered
generator whose `should_generate()` is true, and
`_post_generation_setup` touches package markers and writes README,
.gitignore and .env.template. -/

/-- The Generate phase: the writes of all registered generators in
registration order (lines 28–49, 106–113). Monitoring and Celery are
registered conditionally; every other generator is always registered
and its `should_generate` gate is translated inside its `*Writes`
function. -/
def generatedWrites (c : ProjectConfig) : List FileWrite :=
  requirementsWrites c ++ environmentWrites c ++ mainAppWrites c ++ configWrites c
    ++ databaseWrites c ++ authWrites c ++ apiWrites c ++ modelsWrites c
    ++ schemasWrites c ++ servicesWrites c ++ utilsWrites c ++ dockerWrites c
    ++ testsWrites c ++ docsWrites c ++ monitoringWrites c ++ celeryWrites c

/-- `_create_init_files` (lines 131–158): the package-marker paths
touched after generation. -/
def initFilePaths (c : ProjectConfig) : List Path :=
  ([["app", "__init__.py"], ["app", "api", "__init__.py"],
      ["app", "api", "v1", "__init__.py"], ["app", "core", "__init__.py"],
      ["app", "db", "__init__.py"], ["app", "models", "__init__.py"],
      ["app", "schemas", "__init__.py"], ["app", "services", "__init__.py"],
      ["app", "utils", "__init__.py"]]
    ++ (if c.include_tests then
          [["tests", "__init__.py"], ["tests", "api", "__init__.py"],
           ["tests", "services", "__init__.py"]] else [])
    ++ (if c.include_celery then [["app", "tasks", "__init__.py"]] else []))

/-- Modelled from the spec: the README/.gitignore/.env.template bodies
come from `TemplateManager` (src/generators/template_manager.py is
imported by the orchestrator but missing from src/); per §4.2 rendering
is a pure function of the configuration. -/
def readmeBody (c : ProjectConfig) : String := "README for " ++ c.name

/-- Modelled from the spec: the ignore-file artifact of the Finalize
phase (§4.4). -/
def gitignoreBody (_c : ProjectConfig) : String := "gitignore entries"

/-- Modelled from the spec: the environment-variable template artifact
of the Finalize phase (§4.4). -/
def envTemplateBody (c : ProjectConfig) : String :=
  "env template for " ++ c.name

/-- The file writes of `_post_generation_setup` (lines 115–173), after
the package-marker touches. -/
def postGenerationWrites (c : ProjectConfig) : List FileWrite :=
  [(["README.md"], readmeBody c),
   ([".gitignore"], gitignoreBody c),
   ([".env.template"], envTemplateBody c)]

/-- All (relative path, content) pairs written during one run, in write
order. -/
def allWrites (c : ProjectConfig) : List FileWrite :=
  generatedWrites c ++ postGenerationWrites c

/-- The relative paths of every file present in the output tree: all
written files plus the touched package markers (no generator writes a
package-marker path, so a touch always creates the file). -/
def treePaths (c : ProjectConfig) : List Path :=
  pathsOf (allWrites c) ++ initFilePaths c

/-! ## File-system semantics of a run

`ProjectGenerator.generate` first removes any pre-existing tree at
`config.path` (`shutil.rmtree`, lines 68–70), then materializes every
write through `BaseGenerator.write_file` (overwrite) and
`Path(...).touch()` (create-if-missing). The file system is modelled
as an association list from absolute paths (segment lists) to
contents; directories carry no claim-relevant content of their own and
are elided. -/

abbrev AbsPath := List String

abbrev FileSystem := List (AbsPath × String)

/-- The absolute segments of the project root `config.path`. -/
def rootSegs (c : ProjectConfig) : AbsPath := c.path.splitOn "/"

/-- `BaseGenerator.write_file`: overwrite any existing file at the
path, creating it otherwise (ancestor-directory creation is implicit in
the file-only model). -/
def writeFileFS (p : AbsPath) (content : String) (fs : FileSystem) : FileSystem :=
  fs.filter (fun f => !(f.1 == p)) ++ [(p, content)]

/-- `Path(init_file).touch()`: create an empty file if none exists;
leave an existing file's content alone. -/
def touchFS (p : AbsPath) (fs : FileSystem) : FileSystem :=
  if fs.any (fun f => f.1 == p) then fs else fs ++ [(p, "")]

/-- `shutil.rmtree(config.path)`: drop every file under the root. -/
def removeTree (r : AbsPath) (fs : FileSystem) : FileSystem :=
  fs.filter (fun f => !(r.isPrefixOf f.1))

/-- The part of the file system under a root. -/
def restrictTo (r : AbsPath) (fs : FileSystem) : FileSystem :=
  fs.filter (fun f => r.isPrefixOf f.1)

/-- One file-system operation of the run. -/
inductive FsOp where
  | write (p : Path) (content : String)
  | touch (p : Path)
deriving DecidableEq, Repr

/-- The root-relative path an operation targets. -/
def FsOp.relPath : FsOp → Path
  | .write p _ => p
  | .touch p => p

/-- The ordered operation list of one run: the Generate-phase writes,
then the package-marker touches, then the Finalize-phase writes —
the order of `ProjectGenerator.generate` (lines 51–62). -/
def runOps (c : ProjectConfig) : List FsOp :=
  (generatedWrites c).map (fun w => FsOp.write w.1 w.2)
    ++ (initFilePaths c).map FsOp.touch
    ++ (postGenerationWrites c).map (fun w => FsOp.write w.1 w.2)

/-- Apply one operation below the root `r`. -/
def applyOp (r : AbsPath) (fs : FileSystem) : FsOp → FileSystem
  | FsOp.write p content => writeFileFS (r ++ p) content fs
  | FsOp.touch p => touchFS (r ++ p) fs

/-- `ProjectGenerator.generate`: remove the pre-existing tree, then
apply every operation in order. -/
def projectGenerate (c : ProjectConfig) (fs : FileSystem) : FileSystem :=
  (runOps c).foldl (applyOp (rootSegs c)) (removeTree (rootSegs c) fs)

/-! ## Path pools and example configurations

Constant path lists used to classify where a written path can come
from, and concrete configurations used as test inputs by the theorems
below. -/

/-- Success test for the `str.format` model. -/
def formatSucceeds : Except String String → Bool
  | Except.ok _ => true
  | Except.error _ => false

/-- Every path an always-registered, always-applicable generator or the
Finalize phase can write, plus the unconditional package markers. -/
def corePathPool : List Path :=
  [["requirements.txt"], [".env"], [".env.example"], ["app", "main.py"],
   ["app", "core", "config.py"], ["app", "db", "database.py"],
   ["app", "db", "base.py"], ["app", "api", "v1", "endpoints.py"],
   ["app", "models", "item.py"], ["app", "models", "prediction.py"],
   ["app", "schemas", "item.py"], ["app", "schemas", "prediction.py"],
   ["app", "schemas", "common.py"], ["app", "services", "item_service.py"],
   ["app", "services", "prediction_service.py"],
   ["app", "services", "processing_service.py"], ["app", "utils", "helpers.py"],
   ["app", "utils", "logging.py"], ["app", "utils", "validation.py"],
   ["README.md"], [".gitignore"], [".env.template"],
   ["app", "__init__.py"], ["app", "api", "__init__.py"],
   ["app", "api", "v1", "__init__.py"], ["app", "core", "__init__.py"],
   ["app", "db", "__init__.py"], ["app", "models", "__init__.py"],
   ["app", "schemas", "__init__.py"], ["app", "services", "__init__.py"],
   ["app", "utils", "__init__.py"]]

/-- Every path the auth generator or the auth-conditional part of the
API generator can write. -/
def authPathPool : List Path :=
  [["app", "core", "security.py"], ["app", "models", "auth.py"],
   ["app", "schemas", "auth.py"], ["app", "api", "v1", "auth.py"]]

/-- The auth-related paths named by the frame claim: the auth
generator's files, the auth API router, and the auth test module. -/
def authRelatedPaths : List Path :=
  [["app", "core", "security.py"], ["app", "models", "auth.py"],
   ["app", "schemas", "auth.py"], ["app", "api", "v1", "auth.py"],
   ["tests", "api", "test_auth.py"]]

/-- Every path the Docker generator can write. -/
def dockerPathPool : List Path :=
  [["Dockerfile"], ["docker-compose.yml"], [".dockerignore"]]

/-- Every auth-independent path the tests generator can write, plus the
tests package markers. -/
def testsPathPool : List Path :=
  [["tests", "conftest.py"], ["tests", "api", "test_endpoints.py"],
   ["tests", "services", "test_item_service.py"], ["pytest.ini"],
   ["tests", "__init__.py"], ["tests", "api", "__init__.py"],
   ["tests", "services", "__init__.py"]]

/-- Every path the docs generator can write. -/
def docsPathPool : List Path :=
  [["docs", "api.md"], ["docs", "deployment.md"], ["docs", "development.md"],
   ["docs", "configuration.md"], ["CONTRIBUTING.md"]]

/-- Every path the monitoring generator can write. -/
def monitoringPathPool : List Path :=
  [["monitoring", "prometheus.yml"], ["monitoring", "grafana", "dashboard.json"],
   ["app", "utils", "monitoring.py"]]

/-- Every path the Celery generator can write, plus the tasks package
marker. -/
def celeryPathPool : List Path :=
  [["app", "tasks", "celery_app.py"], ["app", "tasks", "tasks.py"],
   ["scripts", "start_worker.py"], ["app", "tasks", "beat_config.py"],
   ["app", "tasks", "__init__.py"]]

/-- The parent directories that receive files although the Scaffold
phase never creates them: the monitoring generator's `monitoring/` and
`monitoring/grafana/`, and the Celery generator's `scripts/`. -/
def unscaffoldedParents : List Path :=
  [["monitoring"], ["monitoring", "grafana"], ["scripts"]]

/-- A baseline concrete configuration used as a test input. -/
def demoConfig : ProjectConfig :=
  { name := "demo-app", path := "out/demo-app", project_type := ProjectType.crud,
    database_type := DatabaseType.postgresql, auth_type := AuthType.jwt }

/-- The baseline with the blocking (sync) style. -/
def demoJwtSync : ProjectConfig := { demoConfig with is_async := false }

/-- The baseline with authentication disabled. -/
def demoAuthNone : ProjectConfig := { demoConfig with auth_type := AuthType.none }

/-- The baseline on the key-value store (Redis) database kind. -/
def demoRedis : ProjectConfig := { demoConfig with database_type := DatabaseType.redis }

/-- The baseline with monitoring and background tasks enabled. -/
def demoFeaturesOn : ProjectConfig :=
  { demoConfig with include_monitoring := true, include_celery := true }

/-- The baseline with every optional feature disabled. -/
def demoFeaturesOff : ProjectConfig :=
  { demoConfig with include_docker := false, include_tests := false,
                    include_docs := false }

/-- Command-line arguments whose project name violates the
specification's character-set constraint. -/
def argsBadName : CliArgs :=
  { name := "bad name!", path := ".", type := ProjectType.api,
    database := DatabaseType.sqlite, auth := AuthType.jwt, sync := false,
    advanced := false, no_docker := false, no_tests := false, no_docs := false,
    monitoring := false, celery := false, python_version := "3.11" }

/-! ## Theorems -/

/-! ### Helper lemmas about the string primitives -/

theorem listMapEqSelf {α : Type} {f : α → α} :
    ∀ {l : List α}, (∀ c ∈ l, f c = c) → l.map f = l
  | [], _ => rfl
  | c :: rest, h => by
    simp only [List.map_cons]
    rw [h c (List.mem_cons_self c rest), listMapEqSelf (fun d hd => h d (List.mem_cons_of_mem c hd))]

theorem pyLowerChar_eq_self {c : Char} (h : ¬ (65 ≤ c.toNat ∧ c.toNat ≤ 90)) :
    pyLowerChar c = c := by
  simp [pyLowerChar, h]

theorem pyUpperChar_eq_self {c : Char} (h : ¬ (97 ≤ c.toNat ∧ c.toNat ≤ 122)) :
    pyUpperChar c = c := by
  simp [pyUpperChar, h]

theorem replaceChar_eq_self {a b : Char} {l : List Char} (h : ∀ c ∈ l, c ≠ a) :
    replaceChar a b l = l := by
  unfold replaceChar
  exact listMapEqSelf fun c hc => if_neg (h c hc)

theorem pySplit_no_sep {sep : Char} :
    ∀ {l : List Char}, (∀ c ∈ l, c ≠ sep) → pySplit sep l = [l]
  | [], _ => rfl
  | c :: rest, h => by
    have hrest : pySplit sep rest = [rest] :=
      pySplit_no_sep fun d hd => h d (List.mem_cons_of_mem c hd)
    simp [pySplit, hrest, h c (List.mem_cons_self c rest)]

theorem snakeChar_lower {c : Char} (h : isSnakeChar c = true) : pyLowerChar c = c := by
  simp only [isSnakeChar, Bool.or_eq_true, Bool.and_eq_true, decide_eq_true_eq,
    beq_iff_eq] at h
  rcases h with (⟨h1, h2⟩ | ⟨h1, h2⟩) | h
  · exact pyLowerChar_eq_self (by omega)
  · exact pyLowerChar_eq_self (by omega)
  · subst h; decide

theorem snakeChar_ne_hyphen {c : Char} (h : isSnakeChar c = true) : c ≠ '-' := by
  simp only [isSnakeChar, Bool.or_eq_true, Bool.and_eq_true, decide_eq_true_eq,
    beq_iff_eq] at h
  rintro rfl
  rcases h with (⟨h1, h2⟩ | ⟨h1, h2⟩) | h
  · revert h1 h2; decide
  · revert h1 h2; decide
  · revert h; decide

theorem snakeChar_ne_space {c : Char} (h : isSnakeChar c = true) : c ≠ ' ' := by
  simp only [isSnakeChar, Bool.or_eq_true, Bool.and_eq_true, decide_eq_true_eq,
    beq_iff_eq] at h
  rintro rfl
  rcases h with (⟨h1, h2⟩ | ⟨h1, h2⟩) | h
  · revert h1 h2; decide
  · revert h1 h2; decide
  · revert h; decide

theorem kebabChar_lower {c : Char} (h : isKebabChar c = true) : pyLowerChar c = c := by
  simp only [isKebabChar, Bool.or_eq_true, Bool.and_eq_true, decide_eq_true_eq,
    beq_iff_eq] at h
  rcases h with (⟨h1, h2⟩ | ⟨h1, h2⟩) | h
  · exact pyLowerChar_eq_self (by omega)
  · exact pyLowerChar_eq_self (by omega)
  · subst h; decide

theorem kebabChar_ne_underscore {c : Char} (h : isKebabChar c = true) : c ≠ '_' := by
  simp only [isKebabChar, Bool.or_eq_true, Bool.and_eq_true, decide_eq_true_eq,
    beq_iff_eq] at h
  rintro rfl
  rcases h with (⟨h1, h2⟩ | ⟨h1, h2⟩) | h
  · revert h1 h2; decide
  · revert h1 h2; decide
  · revert h; decide

theorem kebabChar_ne_space {c : Char} (h : isKebabChar c = true) : c ≠ ' ' := by
  simp only [isKebabChar, Bool.or_eq_true, Bool.and_eq_true, decide_eq_true_eq,
    beq_iff_eq] at h
  rintro rfl
  rcases h with (⟨h1, h2⟩ | ⟨h1, h2⟩) | h
  · revert h1 h2; decide
  · revert h1 h2; decide
  · revert h; decide

theorem lowerOrDigit_lower {c : Char} (h : isLowerOrDigit c = true) : pyLowerChar c = c := by
  simp only [isLowerOrDigit, Bool.or_eq_true, Bool.and_eq_true, decide_eq_true_eq] at h
  rcases h with ⟨h1, h2⟩ | ⟨h1, h2⟩
  · exact pyLowerChar_eq_self (by omega)
  · exact pyLowerChar_eq_self (by omega)

theorem lowerOrDigit_ne_underscore {c : Char} (h : isLowerOrDigit c = true) : c ≠ '_' := by
  simp only [isLowerOrDigit, Bool.or_eq_true, Bool.and_eq_true, decide_eq_true_eq] at h
  rintro rfl
  rcases h with ⟨h1, h2⟩ | ⟨h1, h2⟩
  · revert h1 h2; decide
  · revert h1 h2; decide

theorem lowerOrDigit_ne_hyphen {c : Char} (h : isLowerOrDigit c = true) : c ≠ '-' := by
  simp only [isLowerOrDigit, Bool.or_eq_true, Bool.and_eq_true, decide_eq_true_eq] at h
  rintro rfl
  rcases h with ⟨h1, h2⟩ | ⟨h1, h2⟩
  · revert h1 h2; decide
  · revert h1 h2; decide

theorem upperChar_fixed {c : Char} (h : isUpperChar c = true) : pyUpperChar c = c := by
  simp only [isUpperChar, Bool.and_eq_true, decide_eq_true_eq] at h
  exact pyUpperChar_eq_self (by omega)

/-- On a name that is already snake_case, `_to_snake_case` is the
identity: lowering fixes lower-case letters, digits and underscores, and
neither replacement finds its pattern. -/
theorem toSnakeCase_idempotent_data {s : String} (h : isSnakeCase s = true) :
    toSnakeCase s = s := by
  unfold toSnakeCase
  simp only [isSnakeCase, List.all_eq_true] at h
  rw [listMapEqSelf fun c hc => snakeChar_lower (h c hc)]
  rw [replaceChar_eq_self fun c hc => snakeChar_ne_hyphen (h c hc)]
  rw [replaceChar_eq_self fun c hc => snakeChar_ne_space (h c hc)]

/-- On a name that is already kebab-case, `_to_kebab_case` is the
identity. -/
theorem toKebabCase_idempotent_data {s : String} (h : isKebabCase s = true) :
    toKebabCase s = s := by
  unfold toKebabCase
  simp only [isKebabCase, List.all_eq_true] at h
  rw [listMapEqSelf fun c hc => kebabChar_lower (h c hc)]
  rw [replaceChar_eq_self fun c hc => kebabChar_ne_underscore (h c hc)]
  rw [replaceChar_eq_self fun c hc => kebabChar_ne_space (h c hc)]

/-- On a single-word PascalCase name, `_to_pascal_case` is the
identity: no separators split the word, the first letter is already
upper-case and the rest is already lower-case. -/
theorem toPascalCase_singleWord {s : String} (h : isSingleWordPascal s = true) :
    toPascalCase s = s := by
  unfold toPascalCase
  obtain ⟨data⟩ := s
  match data with
  | [] => simp [isSingleWordPascal] at h
  | c :: rest =>
    simp only [isSingleWordPascal, Bool.and_eq_true, List.all_eq_true] at h
    obtain ⟨hc, hrest⟩ := h
    have hnosep : ∀ d ∈ c :: rest, d ≠ '_' := by
      intro d hd
      rcases List.mem_cons.mp hd with rfl | hd'
      · intro hh
        rw [hh] at hc
        revert hc; decide
      · exact lowerOrDigit_ne_underscore (hrest d hd')
    have hnohyp : ∀ d ∈ c :: rest, d ≠ '-' := by
      intro d hd
      rcases List.mem_cons.mp hd with rfl | hd'
      · intro hh
        rw [hh] at hc
        revert hc; decide
      · exact lowerOrDigit_ne_hyphen (hrest d hd')
    rw [replaceChar_eq_self hnohyp, pySplit_no_sep hnosep]
    simp only [List.map_cons, List.map_nil, List.flatten, List.append_nil]
    show String.mk (pyCapitalize (c :: rest)) = _
    rw [show pyCapitalize (c :: rest) = pyUpperChar c :: rest.map pyLowerChar from rfl]
    rw [upperChar_fixed hc, listMapEqSelf fun d hd => lowerOrDigit_lower (hrest d hd)]


/-! ### Classifying written paths -/

theorem mem_pathsOf_ite {P : Prop} [Decidable P] {l : List FileWrite} {p : Path}
    (h : p ∈ pathsOf (if P then l else [])) : P ∧ p ∈ pathsOf l := by
  split at h
  · exact ⟨‹P›, h⟩
  · simp [pathsOf] at h

theorem mem_requirements_pool {c : ProjectConfig} {p : Path}
    (h : p ∈ pathsOf (requirementsWrites c)) : p = ["requirements.txt"] := by
  simpa [requirementsWrites, pathsOf] using h

theorem mem_environment_pool {c : ProjectConfig} {p : Path}
    (h : p ∈ pathsOf (environmentWrites c)) : p = [".env"] ∨ p = [".env.example"] := by
  simpa [environmentWrites, pathsOf] using h

theorem mem_mainApp_pool {c : ProjectConfig} {p : Path}
    (h : p ∈ pathsOf (mainAppWrites c)) : p = ["app", "main.py"] := by
  simpa [mainAppWrites, pathsOf] using h

theorem mem_config_pool {c : ProjectConfig} {p : Path}
    (h : p ∈ pathsOf (configWrites c)) : p = ["app", "core", "config.py"] := by
  simpa [configWrites, pathsOf] using h

theorem mem_database_pool {c : ProjectConfig} {p : Path}
    (h : p ∈ pathsOf (databaseWrites c)) :
    p = ["app", "db", "database.py"] ∨ p = ["app", "db", "base.py"] := by
  simpa [databaseWrites, pathsOf] using h

theorem mem_auth_pool {c : ProjectConfig} {p : Path}
    (h : p ∈ pathsOf (authWrites c)) :
    c.auth_type ≠ AuthType.none ∧ p ∈ authPathPool := by
  unfold authWrites at h
  obtain ⟨hgate, h⟩ := mem_pathsOf_ite h
  refine ⟨by simpa [authShouldGenerate] using hgate, ?_⟩
  simp only [authGenerate, pathsOf, List.map_append, List.mem_append] at h
  rcases h with h | h
  · simp only [List.map_cons, List.map_nil, List.mem_singleton, List.mem_cons, List.not_mem_nil, or_false] at h
    simp [authPathPool, h]
  · obtain ⟨-, h⟩ := mem_pathsOf_ite h
    simp only [pathsOf, List.map_cons, List.map_nil, List.mem_cons,
      List.mem_singleton, List.mem_cons, List.not_mem_nil, or_false] at h
    rcases h with h | h <;> simp [authPathPool, h]

theorem mem_api_pool {c : ProjectConfig} {p : Path}
    (h : p ∈ pathsOf (apiWrites c)) :
    p = ["app", "api", "v1", "endpoints.py"] ∨
      (c.auth_type ≠ AuthType.none ∧ p = ["app", "api", "v1", "auth.py"]) := by
  simp only [apiWrites, pathsOf, List.map_append, List.mem_append,
    List.map_cons, List.map_nil, List.mem_singleton, List.mem_cons, List.not_mem_nil, or_false] at h
  rcases h with h | h
  · exact Or.inl h
  · obtain ⟨hgate, h⟩ := mem_pathsOf_ite h
    simp only [pathsOf, List.map_cons, List.map_nil, List.mem_singleton, List.mem_cons, List.not_mem_nil, or_false] at h
    exact Or.inr ⟨by simpa using hgate, h⟩

theorem mem_models_pool {c : ProjectConfig} {p : Path}
    (h : p ∈ pathsOf (modelsWrites c)) :
    p = ["app", "models", "item.py"] ∨ p = ["app", "models", "prediction.py"] := by
  simp only [modelsWrites, pathsOf, List.map_append, List.mem_append] at h
  rcases h with h | h <;> obtain ⟨-, h⟩ := mem_pathsOf_ite h <;>
    simp only [pathsOf, List.map_cons, List.map_nil, List.mem_singleton, List.mem_cons, List.not_mem_nil, or_false] at h <;>
    simp [h]

theorem mem_schemas_pool {c : ProjectConfig} {p : Path}
    (h : p ∈ pathsOf (schemasWrites c)) :
    p = ["app", "schemas", "item.py"] ∨ p = ["app", "schemas", "prediction.py"] ∨
      p = ["app", "schemas", "common.py"] := by
  simp only [schemasWrites, pathsOf, List.map_append, List.mem_append] at h
  rcases h with (h | h) | h
  · obtain ⟨-, h⟩ := mem_pathsOf_ite h
    simp only [pathsOf, List.map_cons, List.map_nil, List.mem_singleton, List.mem_cons, List.not_mem_nil, or_false] at h
    simp [h]
  · obtain ⟨-, h⟩ := mem_pathsOf_ite h
    simp only [pathsOf, List.map_cons, List.map_nil, List.mem_singleton, List.mem_cons, List.not_mem_nil, or_false] at h
    simp [h]
  · simp only [List.map_cons, List.map_nil, List.mem_singleton, List.mem_cons, List.not_mem_nil, or_false] at h
    simp [h]

theorem mem_services_pool {c : ProjectConfig} {p : Path}
    (h : p ∈ pathsOf (servicesWrites c)) :
    p = ["app", "services", "item_service.py"] ∨
      p = ["app", "services", "prediction_service.py"] ∨
      p = ["app", "services", "processing_service.py"] := by
  simp only [servicesWrites, pathsOf, List.map_append, List.mem_append] at h
  rcases h with (h | h) | h <;> obtain ⟨-, h⟩ := mem_pathsOf_ite h <;>
    simp only [pathsOf, List.map_cons, List.map_nil, List.mem_singleton, List.mem_cons, List.not_mem_nil, or_false] at h <;>
    simp [h]

theorem mem_utils_pool {c : ProjectConfig} {p : Path}
    (h : p ∈ pathsOf (utilsWrites c)) :
    p = ["app", "utils", "helpers.py"] ∨ p = ["app", "utils", "logging.py"] ∨
      p = ["app", "utils", "validation.py"] := by
  simpa [utilsWrites, pathsOf] using h

theorem mem_docker_pool {c : ProjectConfig} {p : Path}
    (h : p ∈ pathsOf (dockerWrites c)) :
    c.include_docker = true ∧ p ∈ dockerPathPool := by
  unfold dockerWrites at h
  obtain ⟨hgate, h⟩ := mem_pathsOf_ite h
  refine ⟨by simpa [dockerShouldGenerate] using hgate, ?_⟩
  simp only [dockerGenerate, pathsOf, List.map_cons, List.map_nil, List.mem_cons,
    List.mem_singleton, List.not_mem_nil, or_false] at h
  rcases h with h | h | h <;> simp [dockerPathPool, h]

theorem mem_tests_pool {c : ProjectConfig} {p : Path}
    (h : p ∈ pathsOf (testsWrites c)) :
    c.include_tests = true ∧
      (p ∈ testsPathPool ∨
        (c.auth_type ≠ AuthType.none ∧ p = ["tests", "api", "test_auth.py"])) := by
  unfold testsWrites at h
  obtain ⟨hgate, h⟩ := mem_pathsOf_ite h
  refine ⟨by simpa [testsShouldGenerate] using hgate, ?_⟩
  simp only [testsGenerate, pathsOf, List.map_append, List.mem_append] at h
  rcases h with ((h | h) | h) | h
  · simp only [List.map_cons, List.map_nil, List.mem_cons, List.mem_singleton, List.not_mem_nil, or_false] at h
    rcases h with h | h <;> exact Or.inl (by simp [testsPathPool, h])
  · obtain ⟨-, h⟩ := mem_pathsOf_ite h
    simp only [pathsOf, List.map_cons, List.map_nil, List.mem_singleton, List.mem_cons, List.not_mem_nil, or_false] at h
    exact Or.inl (by simp [testsPathPool, h])
  · obtain ⟨hauth, h⟩ := mem_pathsOf_ite h
    simp only [pathsOf, List.map_cons, List.map_nil, List.mem_singleton, List.mem_cons, List.not_mem_nil, or_false] at h
    exact Or.inr ⟨by simpa using hauth, h⟩
  · simp only [List.map_cons, List.map_nil, List.mem_singleton, List.mem_cons, List.not_mem_nil, or_false] at h
    exact Or.inl (by simp [testsPathPool, h])

theorem mem_docs_pool {c : ProjectConfig} {p : Path}
    (h : p ∈ pathsOf (docsWrites c)) :
    c.include_docs = true ∧ p ∈ docsPathPool := by
  unfold docsWrites at h
  obtain ⟨hgate, h⟩ := mem_pathsOf_ite h
  refine ⟨by simpa [docsShouldGenerate] using hgate, ?_⟩
  simp only [docsGenerate, pathsOf, List.map_cons, List.map_nil, List.mem_cons,
    List.mem_singleton, List.not_mem_nil, or_false] at h
  rcases h with h | h | h | h | h <;> simp [docsPathPool, h]

theorem mem_monitoring_pool {c : ProjectConfig} {p : Path}
    (h : p ∈ pathsOf (monitoringWrites c)) :
    c.include_monitoring = true ∧ p ∈ monitoringPathPool := by
  unfold monitoringWrites at h
  obtain ⟨hgate, h⟩ := mem_pathsOf_ite h
  refine ⟨by simpa [monitoringShouldGenerate] using hgate, ?_⟩
  simp only [monitoringGenerate, pathsOf, List.map_cons, List.map_nil, List.mem_cons,
    List.mem_singleton, List.not_mem_nil, or_false] at h
  rcases h with h | h | h <;> simp [monitoringPathPool, h]

theorem mem_celery_pool {c : ProjectConfig} {p : Path}
    (h : p ∈ pathsOf (celeryWrites c)) :
    c.include_celery = true ∧ p ∈ celeryPathPool := by
  unfold celeryWrites at h
  obtain ⟨hgate, h⟩ := mem_pathsOf_ite h
  refine ⟨by simpa [celeryShouldGenerate] using hgate, ?_⟩
  simp only [celeryGenerate, pathsOf, List.map_append, List.mem_append] at h
  rcases h with h | h
  · simp only [List.map_cons, List.map_nil, List.mem_cons, List.mem_singleton, List.not_mem_nil, or_false] at h
    rcases h with h | h | h <;> simp [celeryPathPool, h]
  · obtain ⟨-, h⟩ := mem_pathsOf_ite h
    simp only [pathsOf, List.map_cons, List.map_nil, List.mem_singleton, List.mem_cons, List.not_mem_nil, or_false] at h
    simp [celeryPathPool, h]

theorem mem_postGen_pool {c : ProjectConfig} {p : Path}
    (h : p ∈ pathsOf (postGenerationWrites c)) :
    p = ["README.md"] ∨ p = [".gitignore"] ∨ p = [".env.template"] := by
  simpa [postGenerationWrites, pathsOf] using h

theorem mem_initFiles_cases {c : ProjectConfig} {p : Path}
    (h : p ∈ initFilePaths c) :
    p ∈ corePathPool ∨ (c.include_tests = true ∧ p ∈ testsPathPool) ∨
      (c.include_celery = true ∧ p ∈ celeryPathPool) := by
  simp only [initFilePaths, List.mem_append] at h
  rcases h with (h | h) | h
  · refine Or.inl ?_
    simp only [List.mem_cons, List.not_mem_nil, or_false] at h
    rcases h with rfl | rfl | rfl | rfl | rfl | rfl | rfl | rfl | rfl <;> decide
  · rcases Decidable.em (c.include_tests = true) with ht | ht
    · rw [if_pos ht] at h
      refine Or.inr (Or.inl ⟨ht, ?_⟩)
      simp only [List.mem_cons, List.not_mem_nil, or_false] at h
      rcases h with rfl | rfl | rfl <;> decide
    · rw [if_neg ht] at h
      simp at h
  · rcases Decidable.em (c.include_celery = true) with hc | hc
    · rw [if_pos hc] at h
      refine Or.inr (Or.inr ⟨hc, ?_⟩)
      simp only [List.mem_cons, List.not_mem_nil, or_false] at h
      rcases h with rfl
      decide
    · rw [if_neg hc] at h
      simp at h

/-- Master classification of the Generate- and Finalize-phase writes:
every written path belongs to the pool of its generator, and the pools
of conditional generators come with their gating condition. -/
theorem allWrites_classified {c : ProjectConfig} {p : Path}
    (h : p ∈ pathsOf (allWrites c)) :
    p ∈ corePathPool
      ∨ (c.auth_type ≠ AuthType.none ∧ p ∈ authPathPool)
      ∨ (c.include_docker = true ∧ p ∈ dockerPathPool)
      ∨ (c.include_tests = true ∧ p ∈ testsPathPool)
      ∨ (c.include_tests = true ∧ c.auth_type ≠ AuthType.none ∧
          p = ["tests", "api", "test_auth.py"])
      ∨ (c.include_docs = true ∧ p ∈ docsPathPool)
      ∨ (c.include_monitoring = true ∧ p ∈ monitoringPathPool)
      ∨ (c.include_celery = true ∧ p ∈ celeryPathPool) := by
  simp only [allWrites, generatedWrites, pathsOf, List.map_append,
    List.mem_append] at h
  rcases h with (((((((((((((((h | h) | h) | h) | h) | h) | h) | h) | h) | h) | h)
      | h) | h) | h) | h) | h) | h
  · exact Or.inl (by rw [mem_requirements_pool h]; decide)
  · rcases mem_environment_pool h with rfl | rfl <;> exact Or.inl (by decide)
  · exact Or.inl (by rw [mem_mainApp_pool h]; decide)
  · exact Or.inl (by rw [mem_config_pool h]; decide)
  · rcases mem_database_pool h with rfl | rfl <;> exact Or.inl (by decide)
  · exact Or.inr (Or.inl (mem_auth_pool h))
  · rcases mem_api_pool h with rfl | ⟨hne, rfl⟩
    · exact Or.inl (by decide)
    · exact Or.inr (Or.inl ⟨hne, by decide⟩)
  · rcases mem_models_pool h with rfl | rfl <;> exact Or.inl (by decide)
  · rcases mem_schemas_pool h with rfl | rfl | rfl <;> exact Or.inl (by decide)
  · rcases mem_services_pool h with rfl | rfl | rfl <;> exact Or.inl (by decide)
  · rcases mem_utils_pool h with rfl | rfl | rfl <;> exact Or.inl (by decide)
  · exact Or.inr (Or.inr (Or.inl (mem_docker_pool h)))
  · rcases mem_tests_pool h with ⟨ht, hp | ⟨hne, rfl⟩⟩
    · exact Or.inr (Or.inr (Or.inr (Or.inl ⟨ht, hp⟩)))
    · exact Or.inr (Or.inr (Or.inr (Or.inr (Or.inl ⟨ht, hne, rfl⟩))))
  · exact Or.inr (Or.inr (Or.inr (Or.inr (Or.inr (Or.inl (mem_docs_pool h))))))
  · exact Or.inr (Or.inr (Or.inr (Or.inr (Or.inr (Or.inr (Or.inl
      (mem_monitoring_pool h)))))))
  · exact Or.inr (Or.inr (Or.inr (Or.inr (Or.inr (Or.inr (Or.inr
      (mem_celery_pool h)))))))
  · rcases mem_postGen_pool h with rfl | rfl | rfl <;> exact Or.inl (by decide)

/-- Master classification of every path in the output tree (writes plus
package-marker touches). -/
theorem treePaths_classified {c : ProjectConfig} {p : Path}
    (h : p ∈ treePaths c) :
    p ∈ corePathPool
      ∨ (c.auth_type ≠ AuthType.none ∧ p ∈ authPathPool)
      ∨ (c.include_docker = true ∧ p ∈ dockerPathPool)
      ∨ (c.include_tests = true ∧ p ∈ testsPathPool)
      ∨ (c.include_tests = true ∧ c.auth_type ≠ AuthType.none ∧
          p = ["tests", "api", "test_auth.py"])
      ∨ (c.include_docs = true ∧ p ∈ docsPathPool)
      ∨ (c.include_monitoring = true ∧ p ∈ monitoringPathPool)
      ∨ (c.include_celery = true ∧ p ∈ celeryPathPool) := by
  simp only [treePaths, List.mem_append] at h
  rcases h with h | h
  · exact allWrites_classified h
  · rcases mem_initFiles_cases h with h | ⟨ht, hp⟩ | ⟨hc, hp⟩
    · exact Or.inl h
    · exact Or.inr (Or.inr (Or.inr (Or.inl ⟨ht, hp⟩)))
    · exact Or.inr (Or.inr (Or.inr (Or.inr (Or.inr (Or.inr (Or.inr ⟨hc, hp⟩))))))

/-! ### Scaffold membership helpers -/

theorem scaffoldBase_sub {c : ProjectConfig} {d : Path}
    (h : d ∈ scaffoldBaseDirs) : d ∈ scaffoldDirs c := by
  unfold scaffoldDirs
  exact List.mem_append_left _ (List.mem_append_left _ (List.mem_append_left _ h))

theorem scaffoldTests_sub {c : ProjectConfig} {d : Path}
    (ht : c.include_tests = true) (h : d ∈ testsScaffoldDirs) :
    d ∈ scaffoldDirs c := by
  unfold scaffoldDirs
  rw [if_pos ht]
  exact List.mem_append_left _
    (List.mem_append_left _ (List.mem_append_right _ h))

theorem scaffoldDocs_mem {c : ProjectConfig} (hd : c.include_docs = true) :
    ["docs"] ∈ scaffoldDirs c := by
  unfold scaffoldDirs
  rw [if_pos hd]
  exact List.mem_append_left _
    (List.mem_append_right _ (List.mem_singleton.mpr rfl))

theorem scaffoldTasks_mem {c : ProjectConfig} (hc : c.include_celery = true) :
    ["app", "tasks"] ∈ scaffoldDirs c := by
  unfold scaffoldDirs
  rw [if_pos hc]
  exact List.mem_append_right _ (List.mem_singleton.mpr rfl)

/-! ### File-system lemmas -/

theorem filterComm {α : Type} (p q : α → Bool) (l : List α) :
    (l.filter p).filter q = (l.filter q).filter p := by
  induction l with
  | nil => rfl
  | cons a l ih => by_cases hp : p a <;> by_cases hq : q a <;> simp [hp, hq, ih]

theorem isPrefixOf_append_self (r p : List String) : r.isPrefixOf (r ++ p) = true := by
  induction r with
  | nil => simp [List.isPrefixOf]
  | cons a as ih => simp [List.isPrefixOf, ih]

theorem restrictTo_filter (r : AbsPath) (q : AbsPath × String → Bool) (fs : FileSystem) :
    restrictTo r (fs.filter q) = (restrictTo r fs).filter q := by
  unfold restrictTo
  exact filterComm q (fun f => r.isPrefixOf f.1) fs

theorem restrictTo_append (r : AbsPath) (a b : FileSystem) :
    restrictTo r (a ++ b) = restrictTo r a ++ restrictTo r b := by
  unfold restrictTo
  exact List.filter_append ..

theorem restrict_write {r pp : AbsPath} (h : r.isPrefixOf pp = true) (s : String)
    (fs : FileSystem) :
    restrictTo r (writeFileFS pp s fs) = writeFileFS pp s (restrictTo r fs) := by
  unfold writeFileFS
  rw [restrictTo_append, restrictTo_filter]
  unfold restrictTo
  simp [h]

theorem any_restrict {r pp : AbsPath} (h : r.isPrefixOf pp = true) (fs : FileSystem) :
    (restrictTo r fs).any (fun f => f.1 == pp) = fs.any (fun f => f.1 == pp) := by
  induction fs with
  | nil => rfl
  | cons f fs ih =>
    unfold restrictTo at ih ⊢
    by_cases hf : f.1 == pp
    · have hpre : r.isPrefixOf f.1 = true := by rw [eq_of_beq hf]; exact h
      simp [List.filter_cons, hpre, List.any_cons, hf]
    · by_cases hr : r.isPrefixOf f.1 <;>
        simp [List.filter_cons, hr, List.any_cons, hf, ih]

theorem restrict_touch {r pp : AbsPath} (h : r.isPrefixOf pp = true) (fs : FileSystem) :
    restrictTo r (touchFS pp fs) = touchFS pp (restrictTo r fs) := by
  unfold touchFS
  rw [any_restrict h]
  by_cases hany : fs.any (fun f => f.1 == pp) = true
  · rw [if_pos hany, if_pos hany]
  · rw [if_neg hany, if_neg hany, restrictTo_append]
    unfold restrictTo
    simp [h]

theorem restrict_applyOp (r : AbsPath) (op : FsOp) (fs : FileSystem) :
    restrictTo r (applyOp r fs op) = applyOp r (restrictTo r fs) op := by
  cases op with
  | write p s => exact restrict_write (isPrefixOf_append_self r p) s fs
  | touch p => exact restrict_touch (isPrefixOf_append_self r p) fs

theorem restrict_foldl (r : AbsPath) (ops : List FsOp) (fs : FileSystem) :
    restrictTo r (ops.foldl (applyOp r) fs) = ops.foldl (applyOp r) (restrictTo r fs) := by
  induction ops generalizing fs with
  | nil => rfl
  | cons op ops ih =>
    simp only [List.foldl_cons]
    rw [ih, restrict_applyOp]

theorem restrict_removeTree (r : AbsPath) (fs : FileSystem) :
    restrictTo r (removeTree r fs) = [] := by
  unfold restrictTo removeTree
  induction fs with
  | nil => rfl
  | cons f fs ih => by_cases hr : r.isPrefixOf f.1 <;> simp [List.filter_cons, hr, ih]

/-! ### Injecting chunk writes into the output tree -/

theorem tree_of_docker {c : ProjectConfig} {p : Path}
    (h : p ∈ pathsOf (dockerWrites c)) : p ∈ treePaths c := by
  simp only [pathsOf] at h
  simp only [treePaths, allWrites, generatedWrites, pathsOf, List.map_append,
    List.mem_append]
  tauto

theorem tree_of_tests {c : ProjectConfig} {p : Path}
    (h : p ∈ pathsOf (testsWrites c)) : p ∈ treePaths c := by
  simp only [pathsOf] at h
  simp only [treePaths, allWrites, generatedWrites, pathsOf, List.map_append,
    List.mem_append]
  tauto

theorem tree_of_docs {c : ProjectConfig} {p : Path}
    (h : p ∈ pathsOf (docsWrites c)) : p ∈ treePaths c := by
  simp only [pathsOf] at h
  simp only [treePaths, allWrites, generatedWrites, pathsOf, List.map_append,
    List.mem_append]
  tauto

theorem tree_of_monitoring {c : ProjectConfig} {p : Path}
    (h : p ∈ pathsOf (monitoringWrites c)) : p ∈ treePaths c := by
  simp only [pathsOf] at h
  simp only [treePaths, allWrites, generatedWrites, pathsOf, List.map_append,
    List.mem_append]
  tauto

theorem tree_of_celery {c : ProjectConfig} {p : Path}
    (h : p ∈ pathsOf (celeryWrites c)) : p ∈ treePaths c := by
  simp only [pathsOf] at h
  simp only [treePaths, allWrites, generatedWrites, pathsOf, List.map_append,
    List.mem_append]
  tauto

/-! ### Claim theorems -/

/-- C4 (counterexample): the claim "toPascalCase applied to an already
PascalCase name returns it unchanged" fails: "MyApp" is PascalCase, yet
`_to_pascal_case` maps it to "Myapp" (Python `str.capitalize`
lower-cases everything after the first character of the single
underscore-split word). -/
theorem caseIdempotence_counterexample :
    isPascalCase "MyApp" = true ∧ toPascalCase "MyApp" = "Myapp" ∧
      ("Myapp" : String) ≠ "MyApp" := by
  refine ⟨by decide, by decide, by decide⟩

/-- C4 (amended): `toSnakeCase` and `toKebabCase` are the identity on
already-correctly-cased names; `toPascalCase` is the identity only on
single-word PascalCase names (an upper-case letter followed by
lower-case letters and digits). -/
theorem caseIdempotence_amended (s : String) :
    (isSnakeCase s = true → toSnakeCase s = s) ∧
    (isKebabCase s = true → toKebabCase s = s) ∧
    (isSingleWordPascal s = true → toPascalCase s = s) :=
  ⟨toSnakeCase_idempotent_data, toKebabCase_idempotent_data, toPascalCase_singleWord⟩

/-- C4 (witness): the amended idempotence at concrete names. -/
theorem caseIdempotence_witness :
    toSnakeCase "demo_app" = "demo_app" ∧ toKebabCase "demo-app" = "demo-app" ∧
      toPascalCase "Demoapp" = "Demoapp" :=
  ⟨(caseIdempotence_amended "demo_app").1 (by decide),
   (caseIdempotence_amended "demo-app").2.1 (by decide),
   (caseIdempotence_amended "Demoapp").2.2 (by decide)⟩

/-- C5 (counterexample): the claim "render raises a TemplateError when
the template references a variable not present in the bag; it never
silently substitutes an empty value" fails on
`TemplateManager.render_string`: with Jinja2's default environment a
missing variable renders as the empty string, with no error. -/
theorem renderError_counterexample :
    lookupVar [] "missing" = Option.none ∧
      jinjaRender [] [Tok.var "missing"] = "" := by
  refine ⟨by decide, by decide⟩

/-- C5 (amended): the `str.format` path (`format_template`) fails
(with a KeyError carrying the missing key — there is no TemplateError
type) exactly when some referenced variable is absent from the bag, and
agrees with the Jinja path on templates whose variables are all
present; the Jinja path (`render_string`) itself is total and renders a
missing variable as the empty string. -/
theorem renderError_amended (bag : List (String × String)) (ts : List Tok) :
    (formatSucceeds (pyFormat bag ts) = true ↔
        ∀ v ∈ varsOf ts, (lookupVar bag v).isSome = true) ∧
    (∀ s, pyFormat bag ts = Except.ok s → jinjaRender bag ts = s) := by
  induction ts with
  | nil =>
    constructor
    · simp [pyFormat, varsOf, formatSucceeds]
    · intro s hs
      simp only [pyFormat] at hs
      cases hs
      rfl
  | cons t ts ih =>
    obtain ⟨ih1, ih2⟩ := ih
    cases t with
    | lit s' =>
      constructor
      · cases hpf : pyFormat bag ts with
        | ok v =>
          simp only [pyFormat, hpf, Except.map, varsOf]
          rw [hpf] at ih1
          simpa [formatSucceeds] using ih1
        | error e =>
          simp only [pyFormat, hpf, Except.map, varsOf]
          rw [hpf] at ih1
          simpa [formatSucceeds] using ih1
      · intro s hs
        simp only [pyFormat] at hs
        cases hpf : pyFormat bag ts with
        | ok v =>
          rw [hpf] at hs
          simp only [Except.map] at hs
          cases hs
          simp only [jinjaRender, ih2 v hpf]
        | error e =>
          rw [hpf] at hs
          simp [Except.map] at hs
    | var v =>
      constructor
      · cases hl : lookupVar bag v with
        | none =>
          simp only [pyFormat, hl, varsOf, formatSucceeds]
          constructor
          · intro h
            exact absurd h (by simp)
          · intro h
            have hv := h v (by simp)
            rw [hl] at hv
            simp at hv
        | some val =>
          cases hpf : pyFormat bag ts with
          | ok w =>
            rw [hpf] at ih1
            simp only [formatSucceeds] at ih1
            simp only [pyFormat, hl, hpf, Except.map, varsOf, formatSucceeds]
            constructor
            · intro _ v' hv'
              rcases List.mem_cons.mp hv' with rfl | hv'
              · rw [hl]
                rfl
              · exact (ih1.mp trivial) v' hv'
            · intro _
              trivial
          | error e =>
            rw [hpf] at ih1
            simp only [formatSucceeds] at ih1
            simp only [pyFormat, hl, hpf, Except.map, varsOf, formatSucceeds]
            constructor
            · intro h
              exact absurd h (by simp)
            · intro h
              have hall : ∀ v' ∈ varsOf ts, (lookupVar bag v').isSome = true :=
                fun v' hv' => h v' (List.mem_cons_of_mem v hv')
              exact absurd (ih1.mpr hall) (by simp)
      · intro s hs
        simp only [pyFormat] at hs
        cases hl : lookupVar bag v with
        | none =>
          rw [hl] at hs
          cases hs
        | some val =>
          rw [hl] at hs
          cases hpf : pyFormat bag ts with
          | ok w =>
            rw [hpf] at hs
            simp only [Except.map] at hs
            cases hs
            simp only [jinjaRender, hl, Option.getD_some, ih2 w hpf]
          | error e =>
            rw [hpf] at hs
            simp [Except.map] at hs

/-- C5 (witness): the amended agreement at a concrete template and
bag. -/
theorem renderError_witness :
    jinjaRender [] [Tok.lit "demo"] = "demo" ++ "" :=
  (renderError_amended [] [Tok.lit "demo"]).2 ("demo" ++ "") rfl

/-- C2 (counterexample): the claim "constructing a Configuration with a
name that is empty or contains a disallowed character raises a
ConfigurationError before any Generator runs" fails: with the name
"bad name!" (space and bang are outside the allowed set) the
configuration is constructed as given, the scaffold directory set is
non-empty and the generators produce writes — no error path exists in
`ProjectConfig` or `create_project_config`. -/
theorem nameValidation_counterexample :
    specNameValid argsBadName.name = false ∧
      (createProjectConfig argsBadName).name = "bad name!" ∧
      (allWrites (createProjectConfig argsBadName)).length ≠ 0 ∧
      scaffoldDirs (createProjectConfig argsBadName) ≠ [] := by
  refine ⟨by decide, by decide, by decide, by decide⟩

/-- C2 (amended): `ProjectConfig` is a plain dataclass and
`create_project_config` performs no name validation: for any arguments,
even with a name that is empty or contains disallowed characters,
construction succeeds with the fields taken as given and the run
produces writes. The only name check in the repository is the
interactive prompt of the alternate CLI, which re-prompts instead of
raising, and no ConfigurationError type exists. -/
theorem nameValidation_amended (args : CliArgs)
    (_h : specNameValid args.name = false) :
    (createProjectConfig args).name = args.name ∧
      (createProjectConfig args).path = osPathJoin args.path args.name ∧
      (allWrites (createProjectConfig args)).length ≠ 0 := by
  refine ⟨rfl, rfl, ?_⟩
  simp [allWrites, generatedWrites, requirementsWrites]

/-- C2 (witness): the amended statement at the invalid concrete name. -/
theorem nameValidation_witness :
    (createProjectConfig argsBadName).name = argsBadName.name ∧
      (createProjectConfig argsBadName).path = osPathJoin argsBadName.path argsBadName.name ∧
      (allWrites (createProjectConfig argsBadName)).length ≠ 0 :=
  nameValidation_amended argsBadName (by decide)

/-- C3 (counterexample): the claim "for databaseKind key-value-store
the models and services Generators write no app/models/item.py and no
app/services/item_service.py (as opposed to writing a file with empty
content)" fails: on Redis with the plain-API or full-CRUD archetype
both files are written, with empty content — `generate` calls
`write_file` unconditionally with whatever the template selector
returned, and the selector's fall-through returns `""`. -/
theorem unknownAxis_counterexample :
    (["app", "models", "item.py"], "") ∈ modelsWrites demoRedis ∧
      (["app", "services", "item_service.py"], "") ∈ servicesWrites demoRedis := by
  refine ⟨by decide, by decide⟩

/-- C3 (amended): for an unrecognized database kind (Redis) under the
plain-API or full-CRUD archetype, the models and services generators do
not raise but emit exactly one file each — `app/models/item.py` and
`app/services/item_service.py` — with empty content. -/
theorem unknownAxis_amended (c : ProjectConfig)
    (hpt : c.project_type = ProjectType.api ∨ c.project_type = ProjectType.crud)
    (hdb : c.database_type = DatabaseType.redis) :
    modelsWrites c = [(["app", "models", "item.py"], "")] ∧
      servicesWrites c = [(["app", "services", "item_service.py"], "")] := by
  rcases hpt with h | h <;>
    simp [modelsWrites, servicesWrites, getItemModelTemplate,
      getItemServiceTemplate, h, hdb]

/-- C3 (witness): the amended statement at the concrete Redis
configuration. -/
theorem unknownAxis_witness :
    modelsWrites demoRedis = [(["app", "models", "item.py"], "")] ∧
      servicesWrites demoRedis = [(["app", "services", "item_service.py"], "")] :=
  unknownAxis_amended demoRedis (by decide) (by decide)

set_option maxRecDepth 4000 in
/-- C6 (code bug): the JWT security template only references
`{async_user_functions}` and `{async_current_user}` even though
`_get_jwt_template` builds and passes `sync_user_functions` and
`sync_current_user` in its variable bag; so in the blocking (sync)
style the emitted `app/core/security.py` contains neither the blocking
nor the non-blocking user functions — the jwt body does not match
`styleIsAsync = false`, and the emitted code calls the never-defined
`get_user_by_email`. The non-blocking style is assembled correctly. -/
theorem authTemplate_syncBug :
    varsOf jwtTemplateTokens = ["async_user_functions", "async_current_user"] ∧
      lookupVar (jwtTemplateVars demoJwtSync) "sync_user_functions"
        = some syncUserFunctions ∧
      syncUserFunctions ≠ "" ∧
      getSecurityTemplate demoJwtSync = jwtTemplateHead ++ jwtTemplateMid ∧
      getSecurityTemplate demoConfig
        = jwtTemplateHead ++ (asyncUserFunctions
            ++ (jwtTemplateMid ++ asyncCurrentUser)) := by
  refine ⟨by decide, by decide, by decide, by decide, by decide⟩

/-- C10: with `authKind = api-key` the auth generator emits exactly one
file, `app/core/security.py`; switching the same configuration to
token-based (jwt) emits that file plus the auth model and auth schema
files, so the api-key path set is strictly contained in the token-based
one. -/
theorem apiKeyFileSet (c : ProjectConfig) (h : c.auth_type = AuthType.apiKey) :
    authWrites c = [(["app", "core", "security.py"], apiKeyTemplateBody)] ∧
      pathsOf (authWrites { c with auth_type := AuthType.jwt })
        = [["app", "core", "security.py"], ["app", "models", "auth.py"],
           ["app", "schemas", "auth.py"]] ∧
      (∀ p ∈ pathsOf (authWrites c),
        p ∈ pathsOf (authWrites { c with auth_type := AuthType.jwt })) ∧
      (pathsOf (authWrites c)).length
        < (pathsOf (authWrites { c with auth_type := AuthType.jwt })).length := by
  have h1 : authWrites c = [(["app", "core", "security.py"], apiKeyTemplateBody)] := by
    simp [authWrites, authShouldGenerate, authGenerate, getSecurityTemplate, h]
  have h2 : pathsOf (authWrites { c with auth_type := AuthType.jwt })
      = [["app", "core", "security.py"], ["app", "models", "auth.py"],
         ["app", "schemas", "auth.py"]] := by
    simp [authWrites, authShouldGenerate, authGenerate, pathsOf]
  refine ⟨h1, h2, ?_, ?_⟩
  · intro p hp
    rw [h1] at hp
    rw [h2]
    simp only [pathsOf, List.map_cons, List.map_nil, List.mem_singleton,
      List.mem_cons, List.not_mem_nil, or_false] at hp
    simp [hp]
  · rw [h1, h2]
    simp [pathsOf]

/-- C10 (witness): the api-key file set at a concrete configuration. -/
theorem apiKeyFileSet_witness :
    authWrites { demoConfig with auth_type := AuthType.apiKey }
      = [(["app", "core", "security.py"], apiKeyTemplateBody)] :=
  (apiKeyFileSet { demoConfig with auth_type := AuthType.apiKey } rfl).1

/-- C1 (counterexample): the claim "the Scaffold directory set is a
superset of the parent directories of every file written during
Generate" fails: with monitoring enabled, `monitoring/prometheus.yml`
is written but its parent `monitoring/` is not among the scaffold
directories (nor are `monitoring/grafana/` and the Celery generator's
`scripts/`). -/
theorem directorySuperset_counterexample :
    ["monitoring", "prometheus.yml"] ∈ pathsOf (allWrites demoFeaturesOn) ∧
      parentDir ["monitoring", "prometheus.yml"] ∉ scaffoldDirs demoFeaturesOn ∧
      parentDir ["scripts", "start_worker.py"] ∉ scaffoldDirs demoFeaturesOn := by
  refine ⟨by decide, by decide, by decide⟩

/-- C1 (amended): the Scaffold directory set contains the parent
directory of every file written during Generate and Finalize, except
for the monitoring generator's outputs under `monitoring/` and
`monitoring/grafana/` and the Celery generator's `scripts/` output;
those writes succeed anyway because `write_file` itself creates missing
ancestors (`mkdir(parents=True, exist_ok=True)`). -/
theorem directorySuperset_amended (c : ProjectConfig) (w : FileWrite)
    (hw : w ∈ allWrites c) :
    parentDir w.1 ∈ scaffoldDirs c ∨ parentDir w.1 ∈ unscaffoldedParents := by
  have hp : w.1 ∈ pathsOf (allWrites c) := List.mem_map_of_mem Prod.fst hw
  rcases allWrites_classified hp with h | ⟨-, h⟩ | ⟨-, h⟩ | ⟨ht, h⟩ | ⟨ht, -, heq⟩
    | ⟨hd, h⟩ | ⟨-, h⟩ | ⟨hc, h⟩
  · exact Or.inl (scaffoldBase_sub
      ((by decide : ∀ q ∈ corePathPool, parentDir q ∈ scaffoldBaseDirs) _ h))
  · exact Or.inl (scaffoldBase_sub
      ((by decide : ∀ q ∈ authPathPool, parentDir q ∈ scaffoldBaseDirs) _ h))
  · exact Or.inl (scaffoldBase_sub
      ((by decide : ∀ q ∈ dockerPathPool, parentDir q ∈ scaffoldBaseDirs) _ h))
  · rcases (by decide : ∀ q ∈ testsPathPool,
        parentDir q ∈ scaffoldBaseDirs ∨ parentDir q ∈ testsScaffoldDirs) _ h
      with h' | h'
    · exact Or.inl (scaffoldBase_sub h')
    · exact Or.inl (scaffoldTests_sub ht h')
  · rw [heq]
    exact Or.inl (scaffoldTests_sub ht (by decide))
  · rcases (by decide : ∀ q ∈ docsPathPool,
        parentDir q ∈ scaffoldBaseDirs ∨ parentDir q = ["docs"]) _ h
      with h' | h'
    · exact Or.inl (scaffoldBase_sub h')
    · exact Or.inl (h' ▸ scaffoldDocs_mem hd)
  · rcases (by decide : ∀ q ∈ monitoringPathPool,
        parentDir q ∈ scaffoldBaseDirs ∨ parentDir q ∈ unscaffoldedParents) _ h
      with h' | h'
    · exact Or.inl (scaffoldBase_sub h')
    · exact Or.inr h'
  · rcases (by decide : ∀ q ∈ celeryPathPool,
        parentDir q = ["app", "tasks"] ∨ parentDir q ∈ unscaffoldedParents) _ h
      with h' | h'
    · exact Or.inl (h' ▸ scaffoldTasks_mem hc)
    · exact Or.inr h'

/-- C1 (witness): the amended statement at a concrete write. -/
theorem directorySuperset_witness :
    parentDir ["requirements.txt"] ∈ scaffoldDirs demoConfig ∨
      parentDir ["requirements.txt"] ∈ unscaffoldedParents :=
  directorySuperset_amended demoConfig (["requirements.txt"], "requirements payload")
    (by decide)

/-- C9: generation is deterministic and independent of pre-existing
file-system state: the run first removes the tree at the output root
and every subsequent write and touch is a pure function of the
configuration, so the resulting tree under the root is the same for any
two starting states — in particular two successive runs produce
byte-identical trees. -/
theorem generationDeterministic (c : ProjectConfig) (fs₁ fs₂ : FileSystem) :
    restrictTo (rootSegs c) (projectGenerate c fs₁)
      = restrictTo (rootSegs c) (projectGenerate c fs₂) := by
  unfold projectGenerate
  rw [restrict_foldl, restrict_foldl, restrict_removeTree, restrict_removeTree]

/-- C7: applicability gating for every feature boolean and its
generator: when the flag is off, none of that generator's possible
paths appears anywhere in the output tree — for the tests generator
this includes its auth-conditional `tests/api/test_auth.py`, absent
whatever the auth axis says — and, when the flag is on, the generator's
(unconditional) minimal file set appears. -/
theorem featureGating (c : ProjectConfig) :
    (c.include_docker = false → ∀ p ∈ dockerPathPool, p ∉ treePaths c) ∧
    (c.include_docker = true → ∀ p ∈ dockerPathPool, p ∈ treePaths c) ∧
    (c.include_tests = false → ∀ p ∈ testsPathPool, p ∉ treePaths c) ∧
    (c.include_tests = false → ["tests", "api", "test_auth.py"] ∉ treePaths c) ∧
    (c.include_tests = true → ["tests", "conftest.py"] ∈ treePaths c ∧
      ["tests", "api", "test_endpoints.py"] ∈ treePaths c ∧
      ["pytest.ini"] ∈ treePaths c) ∧
    (c.include_docs = false → ∀ p ∈ docsPathPool, p ∉ treePaths c) ∧
    (c.include_docs = true → ∀ p ∈ docsPathPool, p ∈ treePaths c) ∧
    (c.include_monitoring = false → ∀ p ∈ monitoringPathPool, p ∉ treePaths c) ∧
    (c.include_monitoring = true → ∀ p ∈ monitoringPathPool, p ∈ treePaths c) ∧
    (c.include_celery = false → ∀ p ∈ celeryPathPool, p ∉ treePaths c) ∧
    (c.include_celery = true → ["app", "tasks", "celery_app.py"] ∈ treePaths c ∧
      ["app", "tasks", "tasks.py"] ∈ treePaths c ∧
      ["scripts", "start_worker.py"] ∈ treePaths c) := by
  refine ⟨?_, ?_, ?_, ?_, ?_, ?_, ?_, ?_, ?_, ?_, ?_⟩
  · intro hf p hp hmem
    rcases treePaths_classified hmem with h | ⟨-, h⟩ | ⟨hg, -⟩ | ⟨-, h⟩
      | ⟨-, -, heq⟩ | ⟨-, h⟩ | ⟨-, h⟩ | ⟨-, h⟩
    · exact (by decide : ∀ q ∈ dockerPathPool, q ∉ corePathPool) p hp h
    · exact (by decide : ∀ q ∈ dockerPathPool, q ∉ authPathPool) p hp h
    · rw [hf] at hg
      exact Bool.noConfusion hg
    · exact (by decide : ∀ q ∈ dockerPathPool, q ∉ testsPathPool) p hp h
    · rw [heq] at hp
      exact absurd hp (by decide)
    · exact (by decide : ∀ q ∈ dockerPathPool, q ∉ docsPathPool) p hp h
    · exact (by decide : ∀ q ∈ dockerPathPool, q ∉ monitoringPathPool) p hp h
    · exact (by decide : ∀ q ∈ dockerPathPool, q ∉ celeryPathPool) p hp h
  · intro ht p hp
    apply tree_of_docker
    simpa [dockerWrites, dockerShouldGenerate, ht, dockerGenerate, pathsOf,
      dockerPathPool] using hp
  · intro hf p hp hmem
    rcases treePaths_classified hmem with h | ⟨-, h⟩ | ⟨-, h⟩ | ⟨hg, -⟩
      | ⟨hg, -, -⟩ | ⟨-, h⟩ | ⟨-, h⟩ | ⟨-, h⟩
    · exact (by decide : ∀ q ∈ testsPathPool, q ∉ corePathPool) p hp h
    · exact (by decide : ∀ q ∈ testsPathPool, q ∉ authPathPool) p hp h
    · exact (by decide : ∀ q ∈ testsPathPool, q ∉ dockerPathPool) p hp h
    · rw [hf] at hg
      exact Bool.noConfusion hg
    · rw [hf] at hg
      exact Bool.noConfusion hg
    · exact (by decide : ∀ q ∈ testsPathPool, q ∉ docsPathPool) p hp h
    · exact (by decide : ∀ q ∈ testsPathPool, q ∉ monitoringPathPool) p hp h
    · exact (by decide : ∀ q ∈ testsPathPool, q ∉ celeryPathPool) p hp h
  · intro hf hmem
    rcases treePaths_classified hmem with h | ⟨-, h⟩ | ⟨-, h⟩ | ⟨hg, -⟩
      | ⟨hg, -, -⟩ | ⟨-, h⟩ | ⟨-, h⟩ | ⟨-, h⟩
    · exact absurd h (by decide)
    · exact absurd h (by decide)
    · exact absurd h (by decide)
    · rw [hf] at hg
      exact Bool.noConfusion hg
    · rw [hf] at hg
      exact Bool.noConfusion hg
    · exact absurd h (by decide)
    · exact absurd h (by decide)
    · exact absurd h (by decide)
  · intro ht
    refine ⟨?_, ?_, ?_⟩ <;>
      · apply tree_of_tests
        simp [testsWrites, testsShouldGenerate, ht, testsGenerate, pathsOf]
  · intro hf p hp hmem
    rcases treePaths_classified hmem with h | ⟨-, h⟩ | ⟨-, h⟩ | ⟨-, h⟩
      | ⟨-, -, heq⟩ | ⟨hg, -⟩ | ⟨-, h⟩ | ⟨-, h⟩
    · exact (by decide : ∀ q ∈ docsPathPool, q ∉ corePathPool) p hp h
    · exact (by decide : ∀ q ∈ docsPathPool, q ∉ authPathPool) p hp h
    · exact (by decide : ∀ q ∈ docsPathPool, q ∉ dockerPathPool) p hp h
    · exact (by decide : ∀ q ∈ docsPathPool, q ∉ testsPathPool) p hp h
    · rw [heq] at hp
      exact absurd hp (by decide)
    · rw [hf] at hg
      exact Bool.noConfusion hg
    · exact (by decide : ∀ q ∈ docsPathPool, q ∉ monitoringPathPool) p hp h
    · exact (by decide : ∀ q ∈ docsPathPool, q ∉ celeryPathPool) p hp h
  · intro ht p hp
    apply tree_of_docs
    simpa [docsWrites, docsShouldGenerate, ht, docsGenerate, pathsOf,
      docsPathPool] using hp
  · intro hf p hp hmem
    rcases treePaths_classified hmem with h | ⟨-, h⟩ | ⟨-, h⟩ | ⟨-, h⟩
      | ⟨-, -, heq⟩ | ⟨-, h⟩ | ⟨hg, -⟩ | ⟨-, h⟩
    · exact (by decide : ∀ q ∈ monitoringPathPool, q ∉ corePathPool) p hp h
    · exact (by decide : ∀ q ∈ monitoringPathPool, q ∉ authPathPool) p hp h
    · exact (by decide : ∀ q ∈ monitoringPathPool, q ∉ dockerPathPool) p hp h
    · exact (by decide : ∀ q ∈ monitoringPathPool, q ∉ testsPathPool) p hp h
    · rw [heq] at hp
      exact absurd hp (by decide)
    · exact (by decide : ∀ q ∈ monitoringPathPool, q ∉ docsPathPool) p hp h
    · rw [hf] at hg
      exact Bool.noConfusion hg
    · exact (by decide : ∀ q ∈ monitoringPathPool, q ∉ celeryPathPool) p hp h
  · intro ht p hp
    apply tree_of_monitoring
    simpa [monitoringWrites, monitoringShouldGenerate, ht, monitoringGenerate,
      pathsOf, monitoringPathPool] using hp
  · intro hf p hp hmem
    rcases treePaths_classified hmem with h | ⟨-, h⟩ | ⟨-, h⟩ | ⟨-, h⟩
      | ⟨-, -, heq⟩ | ⟨-, h⟩ | ⟨-, h⟩ | ⟨hg, -⟩
    · exact (by decide : ∀ q ∈ celeryPathPool, q ∉ corePathPool) p hp h
    · exact (by decide : ∀ q ∈ celeryPathPool, q ∉ authPathPool) p hp h
    · exact (by decide : ∀ q ∈ celeryPathPool, q ∉ dockerPathPool) p hp h
    · exact (by decide : ∀ q ∈ celeryPathPool, q ∉ testsPathPool) p hp h
    · rw [heq] at hp
      exact absurd hp (by decide)
    · exact (by decide : ∀ q ∈ celeryPathPool, q ∉ docsPathPool) p hp h
    · exact (by decide : ∀ q ∈ celeryPathPool, q ∉ monitoringPathPool) p hp h
    · rw [hf] at hg
      exact Bool.noConfusion hg
  · intro ht
    refine ⟨?_, ?_, ?_⟩ <;>
      · apply tree_of_celery
        simp [celeryWrites, celeryShouldGenerate, ht, celeryGenerate, pathsOf]

/-- C7 (witness): gating at concrete configurations — Docker file
present by default, monitoring output absent by default and present
when the flag is on, Docker file absent when the flag is off, and the
auth-conditional test module absent when tests are off even though
auth is enabled. -/
theorem featureGating_witness :
    ["Dockerfile"] ∈ treePaths demoConfig ∧
      ["monitoring", "prometheus.yml"] ∉ treePaths demoConfig ∧
      ["monitoring", "prometheus.yml"] ∈ treePaths demoFeaturesOn ∧
      ["Dockerfile"] ∉ treePaths demoFeaturesOff ∧
      ["tests", "api", "test_auth.py"] ∉ treePaths demoFeaturesOff :=
  ⟨(featureGating demoConfig).2.1 rfl _ (by decide),
   (featureGating demoConfig).2.2.2.2.2.2.2.1 rfl _ (by decide),
   (featureGating demoFeaturesOn).2.2.2.2.2.2.2.2.1 rfl _ (by decide),
   (featureGating demoFeaturesOff).1 rfl _ (by decide),
   (featureGating demoFeaturesOff).2.2.2.1 rfl⟩

/-- C8: for two configurations that agree on every field except that
one has `authKind = none`, the auth-disabled run contains none of the
auth-related paths, and the services, models and schemas writes —
the business-logic and persistence files — are identical between the
two runs (their generators never read the auth axis). -/
theorem authFrame (c : ProjectConfig) (a : AuthType)
    (h : c.auth_type = AuthType.none) :
    (∀ p ∈ authRelatedPaths, p ∉ treePaths c) ∧
      servicesWrites { c with auth_type := a } = servicesWrites c ∧
      modelsWrites { c with auth_type := a } = modelsWrites c ∧
      schemasWrites { c with auth_type := a } = schemasWrites c := by
  refine ⟨?_, rfl, rfl, rfl⟩
  intro p hp hmem
  rcases treePaths_classified hmem with hc' | ⟨ha, -⟩ | ⟨-, hc'⟩ | ⟨-, hc'⟩
    | ⟨-, ha, -⟩ | ⟨-, hc'⟩ | ⟨-, hc'⟩ | ⟨-, hc'⟩
  · exact (by decide : ∀ q ∈ authRelatedPaths, q ∉ corePathPool) p hp hc'
  · exact ha h
  · exact (by decide : ∀ q ∈ authRelatedPaths, q ∉ dockerPathPool) p hp hc'
  · exact (by decide : ∀ q ∈ authRelatedPaths, q ∉ testsPathPool) p hp hc'
  · exact ha h
  · exact (by decide : ∀ q ∈ authRelatedPaths, q ∉ docsPathPool) p hp hc'
  · exact (by decide : ∀ q ∈ authRelatedPaths, q ∉ monitoringPathPool) p hp hc'
  · exact (by decide : ∀ q ∈ authRelatedPaths, q ∉ celeryPathPool) p hp hc'

/-- C8 (witness): the frame property at a concrete auth-disabled
configuration against its token-based twin. -/
theorem authFrame_witness :
    ["app", "core", "security.py"] ∉ treePaths demoAuthNone ∧
      servicesWrites { demoAuthNone with auth_type := AuthType.jwt }
        = servicesWrites demoAuthNone :=
  ⟨(authFrame demoAuthNone AuthType.jwt rfl).1 _ (by decide),
   (authFrame demoAuthNone AuthType.jwt rfl).2.1⟩

end StartFast
